import Mathlib

set_option maxHeartbeats 1000000
set_option maxRecDepth 10000

/-!
Verification development for the MQTT-SN client and block-transfer layer of
the 2004-MQTT repository.  The definitions below are shallow embeddings of
the C sources:

* `src/include/drivers/block_transfer.h` — constants and the chunk header;
* `src/src/drivers/block_transfer.c` — block-transfer sender, receiver
  (`process_block_chunk`), retransmission-request builder and handler;
* `src/mqtt_sn_client.c` — topic registry, `msg_id` allocation,
  `wait_for_message`, `mqttsn_publish`, `mqttsn_poll`.

Machine integers are modelled as `Nat` with explicit `% 65536` where uint16
overflow matters; byte buffers are `List Nat`; the receiver's reassembly
buffer is a total function `Nat → Nat` (only individual cells are ever
inspected).
-/

/-! ### Constants from src/include/drivers/block_transfer.h -/

def BLOCK_CHUNK_SIZE : Nat := 128

def BLOCK_MAX_CHUNKS : Nat := 1000

def BLOCK_BUFFER_SIZE : Nat := 60000

def MAX_SUPPORTED_FILE_SIZE : Nat := 58000

/-- Size of the packed `block_header_t` struct: four `uint16_t` fields. -/
def block_header_size : Nat := 8

/-- Bytes of object data per chunk: `BLOCK_CHUNK_SIZE - sizeof(block_header_t)`
(this is the `chunk_data_size` local computed in `send_block_transfer_qos`
and `process_block_chunk`). -/
def chunk_data_size : Nat := BLOCK_CHUNK_SIZE - block_header_size

/-! ### Sender: send_block_transfer_qos (src/src/drivers/block_transfer.c:156) -/

/-- One chunk built by the sender loop of `send_block_transfer_qos`: the
`block_header_t` fields plus the slice of object data carried after the
header. -/
structure SendChunk where
  block_id : Nat
  part_num : Nat
  total_parts : Nat
  data_len : Nat
  payload : List Nat
  deriving Repr, DecidableEq

/-- Outcome of `send_block_transfer_qos`: the two rejection paths (return
value -1) or the list of chunks emitted by the `for (part = 1; part <=
total_parts; ...)` loop (return value 0, assuming every publish succeeds). -/
inductive SendOutcome where
  | rejected_too_large
  | rejected_too_many_chunks
  | sent (chunks : List SendChunk)
  deriving Repr, DecidableEq

/-- Total-parts computation of `send_block_transfer_qos`:
`(data_len + chunk_data_size - 1) / chunk_data_size` (integer division). -/
def sbtq_total_parts (data_len : Nat) : Nat :=
  (data_len + chunk_data_size - 1) / chunk_data_size

/-- Chunk built for 1-based part number `part` out of `data`: offset
`(part-1)*chunk_data_size`, length `chunk_data_size` or the remainder for
the final chunk (mirrors the body of the sender loop). -/
def sbtq_chunk (block_id total_parts : Nat) (data : List Nat) (part : Nat) : SendChunk :=
  let off := (part - 1) * chunk_data_size
  let clen := if off + chunk_data_size > data.length then data.length - off else chunk_data_size
  { block_id := block_id
    part_num := part
    total_parts := total_parts
    data_len := clen
    payload := (data.drop off).take clen }

/-- Model of `send_block_transfer_qos` (src/src/drivers/block_transfer.c:156):
reject `data_len > BLOCK_BUFFER_SIZE`; reject `total_parts > BLOCK_MAX_CHUNKS`;
otherwise emit one chunk per part number 1..total_parts.  The publish calls
are assumed to succeed (their failure aborts the loop early in C); pacing
delays and progress printing carry no data and are not modelled. -/
def send_block_transfer_qos (block_id : Nat) (data : List Nat) : SendOutcome :=
  if data.length > BLOCK_BUFFER_SIZE then .rejected_too_large
  else
    let total_parts := sbtq_total_parts data.length
    if total_parts > BLOCK_MAX_CHUNKS then .rejected_too_many_chunks
    else .sent ((List.range total_parts).map (fun k => sbtq_chunk block_id total_parts data (k + 1)))

/-! ### Receiver: process_block_chunk (src/src/drivers/block_transfer.c:607) -/

/-- Little-endian 16-bit value from two bytes (the packed struct layout of
`block_header_t` on the little-endian RP2040 target). -/
def le16 (lo hi : Nat) : Nat := lo + 256 * hi

/-- Fields of `block_header_t` as read by `memcpy(&header, data, 8)`. -/
structure ChunkHeader where
  block_id : Nat
  part_num : Nat
  total_parts : Nat
  data_len : Nat
  deriving Repr, DecidableEq

/-- Header parse of `process_block_chunk`: the leading 8 bytes, little-endian
uint16 fields in declaration order. -/
def parse_block_header (d : List Nat) : ChunkHeader :=
  { block_id := le16 (d.getD 0 0) (d.getD 1 0)
    part_num := le16 (d.getD 2 0) (d.getD 3 0)
    total_parts := le16 (d.getD 4 0) (d.getD 5 0)
    data_len := le16 (d.getD 6 0) (d.getD 7 0) }

/-- The `block_assembly_t` state (`current_block` in block_transfer.c).
`data_buffer` is modelled as a total byte function; only individual cells
are read.  `received_mask` has one entry per part (calloc'ed to false). -/
structure Assembly where
  block_id : Nat
  total_parts : Nat
  received_parts : Nat
  received_mask : List Bool
  data_buffer : Nat → Nat
  total_length : Nat

/-- Initial `current_block = {0}` state. -/
def Assembly.initial : Assembly :=
  { block_id := 0, total_parts := 0, received_parts := 0, received_mask := []
    data_buffer := fun _ => 0, total_length := 0 }

/-- Model of `init_block_assembly` (src/src/drivers/block_transfer.c:568):
frees prior state, zeroes the mask (`calloc`) and counters.  The freshly
`malloc`'ed data buffer is modelled as zero-filled; the claims only read
cells that have been written. -/
def init_block_assembly (block_id total_parts : Nat) : Assembly :=
  { block_id := block_id
    total_parts := total_parts
    received_parts := 0
    received_mask := List.replicate total_parts false
    data_buffer := fun _ => 0
    total_length := 0 }

/-- File-type detection at block completion
(src/src/drivers/block_transfer.c:682-706): default ".bin"; JPEG on leading
`FF D8` (two bytes), PNG on `89 50 4E 47`, GIF on `47 49 46 38`. -/
def detect_file_ext (buf : Nat → Nat) (total_length : Nat) : String :=
  if 2 ≤ total_length then
    if buf 0 = 0xFF ∧ buf 1 = 0xD8 then ".jpg"
    else if buf 0 = 0x89 ∧ buf 1 = 0x50 ∧ 4 ≤ total_length ∧ buf 2 = 0x4E ∧ buf 3 = 0x47 then ".png"
    else if buf 0 = 0x47 ∧ buf 1 = 0x49 ∧ 4 ≤ total_length ∧ buf 2 = 0x46 ∧ buf 3 = 0x38 then ".gif"
    else ".bin"
  else ".bin"

/-- Filename composed at completion
(src/src/drivers/block_transfer.c:730-736):
`snprintf("received/block_%d_%lu%s", block_id, timestamp_sec, file_ext)`. -/
def completion_filename (block_id timestamp_sec : Nat) (ext : String) : String :=
  "received/block_" ++ toString block_id ++ "_" ++ toString timestamp_sec ++ ext

/-- Data recorded when an assembly completes (`received_parts ==
total_parts`): the id, object size, part count, detected extension and the
SD-card filename. -/
structure Completion where
  block_id : Nat
  size : Nat
  parts : Nat
  ext : String
  filename : String
  deriving Repr, DecidableEq

/-- Result of one `process_block_chunk` call: the updated `current_block`,
the `memcpy` into the reassembly buffer this call performed (offset and
length), if any, and the completion data, if the block finished. -/
structure ChunkStep where
  st : Assembly
  write : Option (Nat × Nat)
  completion : Option Completion

/-- Model of `process_block_chunk` (src/src/drivers/block_transfer.c:607),
parameterised by `now_ms` (the `to_ms_since_boot` clock).  Control flow of
the C function, in order: reject packets shorter than the 8-byte header;
parse the header by memcpy; re-initialise the assembly when `block_id`
differs; reject part numbers outside `1..header.total_parts`; silently drop
parts already set in the mask; store the chunk only when
`buffer_offset + data_len <= BLOCK_BUFFER_SIZE`; on the last missing part,
detect the file type and build the output filename.  Bytes the C `memcpy`
would read past the end of the received packet are modelled as 0. -/
def process_block_chunk (now_ms : Nat) (st : Assembly) (data : List Nat) : ChunkStep :=
  if data.length < block_header_size then ⟨st, none, none⟩
  else
    let h := parse_block_header data
    let st1 := if st.block_id ≠ h.block_id then init_block_assembly h.block_id h.total_parts else st
    if h.part_num < 1 ∨ h.part_num > h.total_parts then ⟨st1, none, none⟩
    else
      let part_index := h.part_num - 1
      if st1.received_mask.getD part_index false then ⟨st1, none, none⟩
      else
        let buffer_offset := part_index * chunk_data_size
        if buffer_offset + h.data_len ≤ BLOCK_BUFFER_SIZE then
          let buf' := fun j =>
            if buffer_offset ≤ j ∧ j < buffer_offset + h.data_len
            then data.getD (block_header_size + (j - buffer_offset)) 0
            else st1.data_buffer j
          let mask' := st1.received_mask.set part_index true
          let received' := st1.received_parts + 1
          let tlen' := if h.part_num = h.total_parts then buffer_offset + h.data_len
                       else st1.total_length
          if received' = st1.total_parts then
            let ext := detect_file_ext buf' tlen'
            let fname := completion_filename st1.block_id (now_ms / 1000) ext
            ⟨{ st1 with block_id := 0, received_parts := received', received_mask := mask'
                        data_buffer := buf', total_length := tlen' },
             some (buffer_offset, h.data_len),
             some ⟨st1.block_id, tlen', st1.total_parts, ext, fname⟩⟩
          else
            ⟨{ st1 with received_parts := received', received_mask := mask'
                        data_buffer := buf', total_length := tlen' },
             some (buffer_offset, h.data_len), none⟩
        else ⟨st1, none, none⟩

/-! ### Receiver: missing-chunk run collection
(block_transfer_request_missing_chunks, src/src/drivers/block_transfer.c:886) -/

/-- Run-collection loop of `block_transfer_request_missing_chunks`.  State:
`i` is the 0-based scan index, `count` is `chunks_added`, `cur` is the open
range (`in_range`/`range_start`/`range_end`), `acc` the ranges already
written into the message.  The loop runs while `i < total_parts && count <
50`; a range closes (and `chunks_added` increments) when a received part
follows missing ones; after the loop the still-open range is appended
without a count check.  An entry `true` in the mask means the part was
received; ranges carry 1-based part numbers. -/
def collectRunsAux : List Bool → Nat → Nat → Option (Nat × Nat) → List (Nat × Nat) →
    List (Nat × Nat)
  | [], _, _, cur, acc => acc ++ cur.toList
  | received :: rest, i, count, cur, acc =>
    if 50 ≤ count then acc ++ cur.toList
    else if received then
      match cur with
      | none => collectRunsAux rest (i + 1) count none acc
      | some r => collectRunsAux rest (i + 1) (count + 1) none (acc ++ [r])
    else
      match cur with
      | none => collectRunsAux rest (i + 1) count (some (i + 1, i + 1)) acc
      | some (s, _) => collectRunsAux rest (i + 1) count (some (s, i + 1)) acc

/-- Ranges encoded into one retransmission request, as collected by the loop
of `block_transfer_request_missing_chunks` over the received mask. -/
def collectRuns (mask : List Bool) : List (Nat × Nat) :=
  collectRunsAux mask 0 0 none []

/-- Specification-side definition (not from the code): ALL maximal runs of
consecutive missing parts of the mask, 1-based and in order, with no limit
on their number.  Used to compare the code's 50-run cutoff against. -/
def specMissingRunsAux : List Bool → Nat → Option (Nat × Nat) → List (Nat × Nat)
  | [], _, cur => cur.toList
  | received :: rest, i, cur =>
    if received then cur.toList ++ specMissingRunsAux rest (i + 1) none
    else
      match cur with
      | none => specMissingRunsAux rest (i + 1) (some (i + 1, i + 1))
      | some (s, _) => specMissingRunsAux rest (i + 1) (some (s, i + 1))

/-- Specification-side list of all maximal missing runs of a mask. -/
def specMissingRuns (mask : List Bool) : List (Nat × Nat) :=
  specMissingRunsAux mask 0 none

/-! ### Retransmission-request text: builder and handler
(block_transfer_request_missing_chunks and
block_transfer_handle_retransmit_request, src/src/drivers/block_transfer.c) -/

/-- Decimal digit character, as produced by `snprintf` `%d`. -/
def digitChar (n : Nat) : Char := Char.ofNat (48 + n)

/-- Decimal rendering of a nonnegative integer, fuel-indexed so that the
definition is structurally recursive (the fuel argument strictly bounds the
number of divisions by 10; `natChars` passes `n` itself, which suffices). -/
def natCharsFuel : Nat → Nat → List Char → List Char
  | 0, n, acc => digitChar n :: acc
  | fuel + 1, n, acc =>
    if n < 10 then digitChar n :: acc
    else natCharsFuel fuel (n / 10) (digitChar (n % 10) :: acc)

/-- Decimal rendering of a nonnegative integer (`%d` for values ≥ 0). -/
def natChars (n : Nat) : List Char := natCharsFuel n n []

/-- Test for an ASCII decimal digit. -/
def isDigitChar (c : Char) : Bool := 48 ≤ c.toNat && c.toNat ≤ 57

/-- Numeric value of a digit character. -/
def digitVal (c : Char) : Nat := c.toNat - 48

/-- Longest digit span at the head of a character list (the digits `%d`
consumes), together with the remainder. -/
def takeDigits : List Char → List Char × List Char
  | [] => ([], [])
  | c :: rest =>
    if isDigitChar c then
      let p := takeDigits rest
      (c :: p.1, p.2)
    else ([], c :: rest)

/-- Value of a digit string, most significant first. -/
def digitsToNat (ds : List Char) : Nat :=
  ds.foldl (fun a c => 10 * a + digitVal c) 0

/-- Literal head of the messages built by
`block_transfer_request_missing_chunks`: `snprintf("RETX:BLOCK=%d,CHUNKS=", ...)`
up to the block id. -/
def retxHead : List Char := ['R', 'E', 'T', 'X', ':', 'B', 'L', 'O', 'C', 'K', '=']

/-- Literal searched by the handler's `strstr(request_msg, "CHUNKS=")`. -/
def chunksLit : List Char := ['C', 'H', 'U', 'N', 'K', 'S', '=']

/-- Rendering of one missing range: `%d` for a single part, `%d-%d` for an
inclusive range. -/
def renderRun (r : Nat × Nat) : List Char :=
  if r.1 = r.2 then natChars r.1 else natChars r.1 ++ '-' :: natChars r.2

/-- Comma-separated range list.  The C loop appends each closed range with a
trailing comma and either appends the final open range without one or strips
the trailing comma afterwards; the net result is this comma join. -/
def renderRuns : List (Nat × Nat) → List Char
  | [] => []
  | [r] => renderRun r
  | r :: rest => renderRun r ++ ',' :: renderRuns rest

/-- Retransmission request built by `block_transfer_request_missing_chunks`
(src/src/drivers/block_transfer.c:881-928):
`RETX:BLOCK=<id>,CHUNKS=<ranges>`.  The C composes this into a 256-byte
`snprintf` buffer; the truncation of over-long range lists (which makes the
offset arithmetic overflow the buffer, undefined behaviour) is not
modelled. -/
def retx_message (block_id : Nat) (mask : List Bool) : List Char :=
  retxHead ++ (natChars block_id ++ (',' :: (chunksLit ++ renderRuns (collectRuns mask))))

/-- Removes `lit` from the head of `l`, or fails. -/
def dropLit : List Char → List Char → Option (List Char)
  | [], l => some l
  | _ :: _, [] => none
  | p :: ps, c :: cs => if p = c then dropLit ps cs else none

/-- First occurrence search (`strstr`): the remainder just after the first
occurrence of `pat`. -/
def findLit (pat : List Char) : List Char → Option (List Char)
  | [] => dropLit pat []
  | c :: cs =>
    match dropLit pat (c :: cs) with
    | some rest => some rest
    | none => findLit pat cs

/-- Model of `sscanf(request_msg, "RETX:BLOCK=%d,CHUNKS=", &id) == 1`: the
literal `RETX:BLOCK=` head followed by at least one digit.  (`sscanf` `%d`
would also tolerate leading whitespace and a sign, which the builder never
produces; `sscanf` returns 1 as soon as `%d` is assigned, so the text after
the digits is not checked here, exactly as in the C.) -/
def retx_scan_block_id (msg : List Char) : Option Nat :=
  match dropLit retxHead msg with
  | none => none
  | some rest =>
    let ds := (takeDigits rest).1
    if ds.isEmpty then none else some (digitsToNat ds)

/-- Outcome of the handler's request-validation gate: either one of the
negative error returns of the C function, or the accepted chunk-list text. -/
inductive RetxGate where
  | err (code : Int)
  | accepted (chunks_text : List Char)
  deriving Repr, DecidableEq

/-- Gate of `block_transfer_handle_retransmit_request`
(src/src/drivers/block_transfer.c:320-348): no active cache → -1; failed
`sscanf` → -2; block-id mismatch → -3; no `CHUNKS=` substring → -4; else the
text after `CHUNKS=` is handed to the `strtok` loop (tokens are then parsed
as `%d-%d` or `%d`, with unparsable tokens silently skipped). -/
def handle_retransmit_request_gate (active : Bool) (cache_block_id : Nat) (msg : List Char) :
    RetxGate :=
  if ¬ active then .err (-1)
  else
    match retx_scan_block_id msg with
    | none => .err (-2)
    | some id =>
      if id ≠ cache_block_id then .err (-3)
      else
        match findLit chunksLit msg with
        | none => .err (-4)
        | some rest => .accepted rest

/-! ### MQTT-SN client (src/mqtt_sn_client.c) -/

def MQTTSN_REGISTER : Nat := 0x0A

def MQTTSN_REGACK : Nat := 0x0B

def MQTTSN_PUBLISH : Nat := 0x0C

def MQTTSN_PUBACK : Nat := 0x0D

def MQTTSN_PUBREL : Nat := 0x10

def MQTTSN_SUBACK : Nat := 0x13

def MQTTSN_PINGREQ : Nat := 0x16

def MQTTSN_PINGRESP : Nat := 0x17

def MQTTSN_OK : Int := 0

def MQTTSN_ERROR : Int := -1

def MQTTSN_TIMEOUT : Int := -2

def MQTTSN_NOT_CONNECTED : Int := -3

def MAX_REGISTERED_TOPICS : Nat := 20

/-- Big-endian 16-bit read `(hi << 8) | lo`, as the client decodes `msg_id`
and `topic_id` fields. -/
def be16 (hi lo : Nat) : Nat := 256 * hi + lo

/-- High byte `(v >> 8) & 0xFF` of a 16-bit write. -/
def be_hi (v : Nat) : Nat := (v / 256) % 256

/-- Low byte `v & 0xFF` of a 16-bit write. -/
def be_lo (v : Nat) : Nat := v % 256

/-- QoS levels (`mqttsn_qos_t`). -/
inductive Qos where
  | q0
  | q1
  | q2
  deriving Repr, DecidableEq

/-- Topic registry, the in-use entries of the `topic_registry` array in
order of insertion (entries with `registered == true` below
`topic_registry_count`). -/
def TopicRegistry := List (String × Nat)

/-- Model of `topic_registry_find` (src/mqtt_sn_client.c:166): id of the
first entry whose name matches, 0 when absent. -/
def topic_registry_find (reg : List (String × Nat)) (topic : String) : Nat :=
  match reg.find? (fun e => e.1 = topic) with
  | some e => e.2
  | none => 0

/-- Model of `topic_registry_get_name` (src/mqtt_sn_client.c:200). -/
def topic_registry_get_name (reg : List (String × Nat)) (topic_id : Nat) : Option String :=
  (reg.find? (fun e => e.2 = topic_id)).map (fun e => e.1)

/-- Model of `topic_registry_add` (src/mqtt_sn_client.c:176): fails
outright when `topic_registry_count >= MAX_REGISTERED_TOPICS` (before even
looking for an existing entry); otherwise updates the matching entry's id
or appends a new entry with the name truncated to 63 characters
(`strncpy(..., 63)`).  Names are unique by construction, so updating every
match equals updating the first. -/
def topic_registry_add (reg : List (String × Nat)) (topic : String) (topic_id : Nat) :
    Bool × List (String × Nat) :=
  if MAX_REGISTERED_TOPICS ≤ reg.length then (false, reg)
  else if reg.any (fun e => e.1 = topic) then
    (true, reg.map (fun e => if e.1 = topic then (e.1, topic_id) else e))
  else (true, reg ++ [((topic.toList.take 63).asString, topic_id)])

/-- The `msg_id` allocation of `mqttsn_register_topic`
(src/mqtt_sn_client.c:545) and `mqttsn_subscribe` (line 627):
`current_msg_id = msg_id++` on a `uint16_t`, with no wrap adjustment.
Returns (emitted id, new counter). -/
def alloc_msg_id_register (m : Nat) : Nat × Nat := (m, (m + 1) % 65536)

/-- The `msg_id` allocation of `mqttsn_publish` (src/mqtt_sn_client.c:709):
`current_msg_id = msg_id++; if (msg_id == 0) msg_id = 1;`.  The emitted id
is the pre-increment value; only the stored counter skips 0. -/
def alloc_msg_id_publish (m : Nat) : Nat × Nat :=
  let next := (m + 1) % 65536
  (m, if next = 0 then 1 else next)

/-- Emitted ids of `n` consecutive QoS>0 publish allocations starting from
counter `m`. -/
def publish_alloc_seq (m : Nat) : Nat → List Nat
  | 0 => []
  | n + 1 => (alloc_msg_id_publish m).1 :: publish_alloc_seq (alloc_msg_id_publish m).2 n

/-- REGISTER frame built by `mqttsn_register_topic`
(src/mqtt_sn_client.c:530-555): length, type, `topic_id = 0x0000`, the
allocated `msg_id` (big-endian) and the topic name bytes. -/
def build_register_packet (topic : String) (current_msg_id : Nat) : List Nat :=
  let body := [MQTTSN_REGISTER, 0, 0, be_hi current_msg_id, be_lo current_msg_id]
      ++ topic.toList.map Char.toNat
  (body.length + 1) :: body

/-- Flags byte written by `mqttsn_publish`: topic-id-type 0 plus the QoS
bits. -/
def publish_flags : Qos → Nat
  | .q0 => 0x00
  | .q1 => 0x20
  | .q2 => 0x40

/-- PUBLISH frame built by `mqttsn_publish` (src/mqtt_sn_client.c:686-725):
length, type, flags, big-endian topic id, the big-endian `msg_id` when
QoS > 0, then the payload. -/
def build_publish_packet (topic_id current_msg_id : Nat) (qos : Qos) (payload : List Nat) :
    List Nat :=
  let body := [MQTTSN_PUBLISH, publish_flags qos, be_hi topic_id, be_lo topic_id]
      ++ (if qos = Qos.q0 then [] else [be_hi current_msg_id, be_lo current_msg_id])
      ++ payload
  (body.length + 1) :: body

/-- REGACK frame emitted in response to a gateway-initiated REGISTER
(src/mqtt_sn_client.c:374-382 and 840-848): accepted, return code 0. -/
def build_regack_packet (topic_id reg_msg_id : Nat) : List Nat :=
  [7, MQTTSN_REGACK, be_hi topic_id, be_lo topic_id, be_hi reg_msg_id, be_lo reg_msg_id, 0]

/-- State threaded through a `wait_for_message` call: the topic registry
(mutated by gateway-initiated REGISTER), frames sent while waiting
(REGACKs), and payloads handed to `message_callback` while waiting. -/
structure WaitSt where
  reg : List (String × Nat)
  sends : List (List Nat)
  delivered : List (String × List Nat)
  deriving Repr, DecidableEq

/-- Outcome of `wait_for_message`: the returned frame (return value =
frame length > 0), `-1` when the frame exceeds the caller's buffer, or
`WIFI_ETIMEDOUT = -2`. -/
inductive WaitFound where
  | frame (f : List Nat)
  | bufferTooSmall
  | timedOut
  deriving Repr, DecidableEq

/-- Dispatch of an inbound PUBLISH inside `wait_for_message`
(src/mqtt_sn_client.c:320-356): only the normal topic-id type resolves a
topic (registry name or `unknown/<id>`); short/pre-defined types leave the
topic empty so the callback is skipped; a 2-byte msg-id field is skipped
when any QoS bit is set; the callback runs only when payload bytes remain. -/
def wait_dispatch_publish (reg : List (String × Nat)) (f : List Nat) :
    List (String × List Nat) :=
  let flags := f.getD 2 0
  if flags &&& 3 = 0 then
    let topic_id := be16 (f.getD 3 0) (f.getD 4 0)
    let topic :=
      match topic_registry_get_name reg topic_id with
      | some name => name
      | none => "unknown/" ++ toString topic_id
    let pos := if flags &&& 0x60 ≠ 0 then 7 else 5
    if pos < f.length then [(topic, f.drop pos)] else []
  else []

/-- Handling of a gateway-initiated REGISTER frame, shared by
`wait_for_message` (src/mqtt_sn_client.c:357-383) and `mqttsn_poll`
(lines 821-848): for frames of length ≥ 7, store the mapping (name bytes
after offset 6, truncated to 63) and emit an accepting REGACK. -/
def handle_inbound_register (reg : List (String × Nat)) (f : List Nat) :
    List (String × Nat) × List (List Nat) :=
  if 7 ≤ f.length then
    let topic_id := be16 (f.getD 2 0) (f.getD 3 0)
    let reg_msg_id := be16 (f.getD 4 0) (f.getD 5 0)
    let name := (((f.drop 6).take 63).map Char.ofNat).asString
    ((topic_registry_add reg name topic_id).2, [build_regack_packet topic_id reg_msg_id])
  else (reg, [])

/-- Model of `wait_for_message` (src/mqtt_sn_client.c:270-401) over the
list of frames that arrive during the bounded wait window; exhausting the
list is the timeout.  Per frame, in the order of the C dispatch: frames of
length ≤ 2 are ignored; a frame of the expected type is returned when the
msg-id check passes (for PUBACK/REGACK of length ≥ 7 the id at bytes 4-5
must match, for SUBACK of length ≥ 8 the id at bytes 5-6; SHORTER frames of
the expected type pass the check vacuously, exactly as in the C, where
`msg_id_matches` keeps its initial `true`) and is dropped otherwise;
PINGRESP is ignored (the callers below never expect it); PUBLISH is
dispatched to the message callback; REGISTER is answered with a REGACK;
any other frame is re-queued in the C — since re-examining it has the same
non-matching outcome within this call, it is modelled as skipped. -/
def wait_for_message (expT expId : Nat) (matchId : Bool) (maxLen : Nat) :
    List (List Nat) → WaitSt → WaitFound × WaitSt
  | [], st => (.timedOut, st)
  | f :: rest, st =>
    if f.length ≤ 2 then wait_for_message expT expId matchId maxLen rest st
    else
      let t := f.getD 1 0
      if t = expT then
        let ok : Bool :=
          if matchId then
            if expT = MQTTSN_PUBACK ∧ 7 ≤ f.length then be16 (f.getD 4 0) (f.getD 5 0) = expId
            else if expT = MQTTSN_REGACK ∧ 7 ≤ f.length then be16 (f.getD 4 0) (f.getD 5 0) = expId
            else if expT = MQTTSN_SUBACK ∧ 8 ≤ f.length then be16 (f.getD 5 0) (f.getD 6 0) = expId
            else true
          else true
        if ok then
          if f.length ≤ maxLen then (.frame f, st) else (.bufferTooSmall, st)
        else wait_for_message expT expId matchId maxLen rest st
      else if t = MQTTSN_PINGRESP then
        wait_for_message expT expId matchId maxLen rest st
      else if t = MQTTSN_PUBLISH then
        wait_for_message expT expId matchId maxLen rest
          { st with delivered := st.delivered ++ wait_dispatch_publish st.reg f }
      else if t = MQTTSN_REGISTER then
        let hr := handle_inbound_register st.reg f
        wait_for_message expT expId matchId maxLen rest
          { st with reg := hr.1, sends := st.sends ++ hr.2 }
      else
        wait_for_message expT expId matchId maxLen rest st

/-- Result of a `mqttsn_publish` call: the returned code, all frames put on
the wire (the PUBLISH itself plus any REGACKs sent while waiting), callback
deliveries made while waiting, the registry and the `msg_id` counter after
the call. -/
structure PublishOut where
  result : Int
  sends : List (List Nat)
  delivered : List (String × List Nat)
  reg : List (String × Nat)
  msg_id : Nat
  deriving Repr, DecidableEq

/-- Model of `mqttsn_publish` (src/mqtt_sn_client.c:669-747) for a topic
already present in the registry (`topic_registry_find ≠ 0`; the
register-on-miss path performs a separate REGISTER exchange first and is
not modelled).  Steps: resolve the topic id; allocate a `msg_id` when
QoS > 0; reject payloads overflowing the 256-byte packet buffer before any
send; send the PUBLISH; for QoS 1 wait up to 1 s for a PUBACK with
`wait_for_message(PUBACK, current_msg_id, true, 16-byte buffer)` and map a
negative wait result to `MQTTSN_ERROR`; for QoS 0 and QoS 2 return
`MQTTSN_OK` immediately after the send — no PUBREC/PUBREL/PUBCOMP
handshake exists.  `trace` is the list of frames arriving during the wait
window. -/
def mqttsn_publish (connected : Bool) (reg : List (String × Nat)) (msg_id : Nat)
    (topic : String) (payload : List Nat) (qos : Qos) (trace : List (List Nat)) : PublishOut :=
  if ¬ connected then ⟨MQTTSN_NOT_CONNECTED, [], [], reg, msg_id⟩
  else
    let topic_id := topic_registry_find reg topic
    let alloc := if qos = Qos.q0 then (0, msg_id) else alloc_msg_id_publish msg_id
    let hdr_len := if qos = Qos.q0 then 5 else 7
    if hdr_len + payload.length > 256 then ⟨MQTTSN_ERROR, [], [], reg, alloc.2⟩
    else
      let pkt := build_publish_packet topic_id alloc.1 qos payload
      match qos with
      | .q1 =>
        let w := wait_for_message MQTTSN_PUBACK alloc.1 true 16 trace ⟨reg, [pkt], []⟩
        match w.1 with
        | .frame _ => ⟨MQTTSN_OK, w.2.sends, w.2.delivered, w.2.reg, alloc.2⟩
        | .bufferTooSmall => ⟨MQTTSN_ERROR, w.2.sends, w.2.delivered, w.2.reg, alloc.2⟩
        | .timedOut => ⟨MQTTSN_ERROR, w.2.sends, w.2.delivered, w.2.reg, alloc.2⟩
      | _ => ⟨MQTTSN_OK, [pkt], [], reg, alloc.2⟩

/-- A delivery made by `mqttsn_poll`: chunk-topic payloads go to
`process_block_chunk`, everything else to `message_callback`. -/
inductive PollDelivery where
  | callback (topic : String) (payload : List Nat)
  | blockChunk (payload : List Nat)
  deriving Repr, DecidableEq

/-- Result of one `mqttsn_poll` call. -/
structure PollOut where
  result : Int
  sends : List (List Nat)
  delivered : List PollDelivery
  reg : List (String × Nat)
  deriving Repr, DecidableEq

/-- Model of `mqttsn_poll` (src/mqtt_sn_client.c:749-857).  `ping_due`
abstracts the keep-alive clock test `now - last_ping_time >
keep_alive*1000/2`; `packet` is the single frame the non-blocking receive
returns, if any.  PUBLISH frames (length ≥ 7) are parsed by topic-id type
(normal: registry lookup or `unknown/<id>`; short: the two characters;
otherwise `predefined/<id>`), the msg-id field is skipped when a QoS bit is
set, and any remaining payload is delivered — to the block-transfer
receiver for topic `pico/chunks`, else to the message callback.  No PUBACK
is emitted and no record of seen msg-ids is kept.  REGISTER frames store
the mapping and emit a REGACK.  PINGRESP and all other types are ignored. -/
def mqttsn_poll (connected : Bool) (reg : List (String × Nat)) (ping_due : Bool)
    (packet : Option (List Nat)) : PollOut :=
  if ¬ connected then ⟨MQTTSN_NOT_CONNECTED, [], [], reg⟩
  else
    let ping_sends : List (List Nat) := if ping_due then [[2, MQTTSN_PINGREQ]] else []
    match packet with
    | none => ⟨MQTTSN_OK, ping_sends, [], reg⟩
    | some b =>
      if b.length ≤ 2 then ⟨MQTTSN_OK, ping_sends, [], reg⟩
      else
        let t := b.getD 1 0
        if t = MQTTSN_PUBLISH then
          if b.length < 7 then ⟨MQTTSN_OK, ping_sends, [], reg⟩
          else
            let flags := b.getD 2 0
            let tt := flags &&& 3
            let topic :=
              if tt = 0 then
                match topic_registry_get_name reg (be16 (b.getD 3 0) (b.getD 4 0)) with
                | some name => name
                | none => "unknown/" ++ toString (be16 (b.getD 3 0) (b.getD 4 0))
              else if tt = 2 then
                [Char.ofNat (b.getD 3 0), Char.ofNat (b.getD 4 0)].asString
              else
                "predefined/" ++ toString (be16 (b.getD 3 0) (b.getD 4 0))
            let pos := if flags &&& 0x60 ≠ 0 then 7 else 5
            if pos < b.length then
              let payload := b.drop pos
              if topic = "pico/chunks" then
                ⟨MQTTSN_OK, ping_sends, [.blockChunk payload], reg⟩
              else
                ⟨MQTTSN_OK, ping_sends, [.callback topic payload], reg⟩
            else ⟨MQTTSN_OK, ping_sends, [], reg⟩
        else if t = MQTTSN_REGISTER then
          if b.length < 7 then ⟨MQTTSN_OK, ping_sends, [], reg⟩
          else
            let hr := handle_inbound_register reg b
            ⟨MQTTSN_OK, ping_sends ++ hr.2, [], hr.1⟩
        else ⟨MQTTSN_OK, ping_sends, [], reg⟩

/-- Frames of PUBLISH type among a send list (used to count
(re)transmissions of a publish call). -/
def publish_frame_count (sends : List (List Nat)) : Nat :=
  (sends.filter (fun f => f.getD 1 0 = MQTTSN_PUBLISH)).length

/-- The PUBACK frames `wait_for_message(MQTTSN_PUBACK, expId, true, ...)`
returns: type byte 0x0D, length > 2, and either length < 7 (malformed, the
msg-id check is skipped) or a matching big-endian msg-id at bytes 4-5. -/
def puback_candidate (expId : Nat) (f : List Nat) : Bool :=
  f.getD 1 0 = MQTTSN_PUBACK ∧ 2 < f.length ∧
    (f.length < 7 ∨ be16 (f.getD 4 0) (f.getD 5 0) = expId)

/-- Specification-side file-type detection (not from the code), following
the claim's words: signature `FF D8 FF` → .jpg, `89 50 4E 47` → .png,
`47 49 46` → .gif, anything else → .bin. -/
def spec_detect_file_ext (buf : Nat → Nat) (total_length : Nat) : String :=
  if 3 ≤ total_length ∧ buf 0 = 0xFF ∧ buf 1 = 0xD8 ∧ buf 2 = 0xFF then ".jpg"
  else if 4 ≤ total_length ∧ buf 0 = 0x89 ∧ buf 1 = 0x50 ∧ buf 2 = 0x4E ∧ buf 3 = 0x47 then ".png"
  else if 3 ≤ total_length ∧ buf 0 = 0x47 ∧ buf 1 = 0x49 ∧ buf 2 = 0x46 then ".gif"
  else ".bin"

/-- Specification-side completed-block filename (not from the code),
following the claim's words: `received/block_<block_id><ext>`. -/
def spec_completion_filename (block_id : Nat) (ext : String) : String :=
  "received/block_" ++ toString block_id ++ ext

/-- Concrete full registry (20 = MAX_REGISTERED_TOPICS distinct entries)
used as a test vector. -/
def reg20 : List (String × Nat) :=
  [("t00", 1), ("t01", 2), ("t02", 3), ("t03", 4), ("t04", 5), ("t05", 6), ("t06", 7),
   ("t07", 8), ("t08", 9), ("t09", 10), ("t10", 11), ("t11", 12), ("t12", 13), ("t13", 14),
   ("t14", 15), ("t15", 16), ("t16", 17), ("t17", 18), ("t18", 19), ("t19", 20)]

/-- Concrete single-chunk block (block 1, 1 part, 4 data bytes
`FF D8 00 00`) used as a test vector for the completion path. -/
def c6_data : List Nat := [1, 0, 1, 0, 1, 0, 4, 0, 255, 216, 0, 0]

/-- The completion record `process_block_chunk` produces for `c6_data` at
time 5000 ms. -/
def c6_completion : Completion := ⟨1, 4, 1, ".jpg", "received/block_1_5.jpg"⟩

/-! Sanity evaluations of the embedded definitions on small inputs. -/

/-! Scratch checks for the C4 boundary values. -/

example : send_block_transfer_qos 1 [] = .sent [] := by decide
example : sbtq_total_parts 1 = 1 ∧ sbtq_total_parts 120 = 1 ∧ sbtq_total_parts 121 = 2 := by decide
example : sbtq_total_parts 119881 = 1000 := by decide

/-! Scratch checks for the receiver model. -/

example :
    (process_block_chunk 0 Assembly.initial
      ([1, 0, 1, 0, 1, 0, 121, 0] ++ List.replicate 121 7)).write = some (0, 121) := by
  decide

example :
    ((process_block_chunk 5000 Assembly.initial
      [1, 0, 1, 0, 1, 0, 4, 0, 0xFF, 0xD8, 0, 0]).completion.map Completion.ext) =
      some ".jpg" := by
  decide

example :
    ((process_block_chunk 5000 Assembly.initial
      [1, 0, 1, 0, 1, 0, 4, 0, 0xFF, 0xD8, 0, 0]).completion.map Completion.filename) =
      some "received/block_1_5.jpg" := by
  decide

example : retx_message 1 [false, true] = "RETX:BLOCK=1,CHUNKS=1".toList := by decide
example : retx_message 3 [true, false, false, false, true, false] =
    "RETX:BLOCK=3,CHUNKS=2-4,6".toList := by decide
example : handle_retransmit_request_gate true 1 "NACK:BLOCK=1,CHUNKS=2".toList =
    .err (-2) := by decide
example : handle_retransmit_request_gate true 1 "RETX:BLOCK=1,CHUNKS=2".toList =
    .accepted ['2'] := by decide

example : collectRuns [false, false, true, false] = [(1, 2), (4, 4)] := by decide
example : specMissingRuns [false, false, true, false] = [(1, 2), (4, 4)] := by decide

/-! Digit-string lemmas used for the builder/handler roundtrip. -/

theorem natCharsFuel_congr :
    ∀ (f₁ f₂ n : Nat) (acc : List Char), n ≤ f₁ → n ≤ f₂ →
      natCharsFuel f₁ n acc = natCharsFuel f₂ n acc := by
  intro f₁
  induction f₁ with
  | zero =>
    intro f₂ n acc h1 _
    have hn : n = 0 := by omega
    subst hn
    cases f₂ with
    | zero => rfl
    | succ h => simp [natCharsFuel]
  | succ g ih =>
    intro f₂ n acc h1 h2
    cases f₂ with
    | zero =>
      have hn : n = 0 := by omega
      subst hn
      simp [natCharsFuel]
    | succ h =>
      by_cases hn : n < 10
      · simp [natCharsFuel, hn]
      · simp only [natCharsFuel, if_neg hn]
        have hdiv : n / 10 < n := Nat.div_lt_self (by omega) (by omega)
        exact ih h (n / 10) _ (by omega) (by omega)

theorem natCharsFuel_append :
    ∀ (f n : Nat) (acc : List Char),
      natCharsFuel f n acc = natCharsFuel f n [] ++ acc := by
  intro f
  induction f with
  | zero => intro n acc; simp [natCharsFuel]
  | succ g ih =>
    intro n acc
    by_cases hn : n < 10
    · simp [natCharsFuel, hn]
    · simp only [natCharsFuel, if_neg hn]
      rw [ih (n / 10) (digitChar (n % 10) :: acc), ih (n / 10) [digitChar (n % 10)]]
      simp

theorem natChars_lt (n : Nat) (h : n < 10) : natChars n = [digitChar n] := by
  cases n with
  | zero => rfl
  | succ m => simp [natChars, natCharsFuel, h]

theorem natChars_ge (n : Nat) (h : 10 ≤ n) :
    natChars n = natChars (n / 10) ++ [digitChar (n % 10)] := by
  obtain ⟨m, rfl⟩ : ∃ m, n = m + 1 := ⟨n - 1, by omega⟩
  show natCharsFuel (m + 1) (m + 1) [] = _
  rw [show natCharsFuel (m + 1) (m + 1) [] =
        natCharsFuel m ((m + 1) / 10) (digitChar ((m + 1) % 10) :: []) from by
      simp [natCharsFuel, Nat.not_lt.mpr h]]
  rw [natCharsFuel_append]
  have hd : (m + 1) / 10 ≤ m := by
    have := Nat.div_lt_self (show 0 < m + 1 by omega) (show 1 < 10 by omega)
    omega
  rw [natCharsFuel_congr m ((m + 1) / 10) ((m + 1) / 10) [] hd (le_refl _)]
  rfl

theorem digitChar_facts :
    ∀ m, m < 10 → isDigitChar (digitChar m) = true ∧ digitVal (digitChar m) = m := by
  decide

theorem natChars_all_digits (n : Nat) : (natChars n).all isDigitChar = true := by
  induction n using Nat.strong_induction_on with
  | _ n ih =>
    by_cases h : n < 10
    · rw [natChars_lt n h]
      simp [(digitChar_facts n h).1]
    · rw [natChars_ge n (by omega)]
      have hdiv : n / 10 < n := Nat.div_lt_self (by omega) (by omega)
      simp [List.all_append, ih (n / 10) hdiv,
        (digitChar_facts (n % 10) (Nat.mod_lt n (by omega))).1]

theorem natChars_ne_nil (n : Nat) : natChars n ≠ [] := by
  by_cases h : n < 10
  · rw [natChars_lt n h]; simp
  · rw [natChars_ge n (by omega)]; simp

theorem digitsToNat_natChars (n : Nat) : digitsToNat (natChars n) = n := by
  induction n using Nat.strong_induction_on with
  | _ n ih =>
    by_cases h : n < 10
    · rw [natChars_lt n h]
      simp [digitsToNat, (digitChar_facts n h).2]
    · rw [natChars_ge n (by omega)]
      have hdiv : n / 10 < n := Nat.div_lt_self (by omega) (by omega)
      simp only [digitsToNat, List.foldl_append, List.foldl]
      rw [show List.foldl (fun a c => 10 * a + digitVal c) 0 (natChars (n / 10)) =
            digitsToNat (natChars (n / 10)) from rfl]
      rw [ih (n / 10) hdiv, (digitChar_facts (n % 10) (Nat.mod_lt n (by omega))).2]
      omega

theorem takeDigits_append (ds : List Char) :
    ∀ rest : List Char, ds.all isDigitChar = true →
      (rest = [] ∨ ∃ c cs, rest = c :: cs ∧ isDigitChar c = false) →
      takeDigits (ds ++ rest) = (ds, rest) := by
  induction ds with
  | nil =>
    intro rest _ hrest
    rcases hrest with h | ⟨c, cs, rfl, hc⟩
    · subst h; rfl
    · simp [takeDigits, hc]
  | cons d ds ih =>
    intro rest hall hrest
    have hd : isDigitChar d = true := by
      have := List.all_eq_true.mp hall d (by simp)
      exact this
    have hds : ds.all isDigitChar = true := by
      rw [List.all_eq_true] at hall ⊢
      intro x hx; exact hall x (by simp [hx])
    simp [takeDigits, hd, ih rest hds hrest]

theorem dropLit_append (pat rest : List Char) : dropLit pat (pat ++ rest) = some rest := by
  induction pat with
  | nil => rfl
  | cons p ps ih => simp [dropLit, ih]

theorem dropLit_eq_some (pat : List Char) :
    ∀ l rest, dropLit pat l = some rest → l = pat ++ rest := by
  induction pat with
  | nil =>
    intro l rest h
    simp [dropLit] at h
    simp [h]
  | cons p ps ih =>
    intro l rest h
    cases l with
    | nil => simp [dropLit] at h
    | cons c cs =>
      by_cases hpc : p = c
      · subst hpc
        simp [dropLit] at h
        simp [ih cs rest h]
      · simp [dropLit, hpc] at h

theorem findLit_cons_of_none {pat : List Char} {c : Char} {cs : List Char}
    (h : dropLit pat (c :: cs) = none) : findLit pat (c :: cs) = findLit pat cs := by
  simp [findLit, h]

theorem findLit_of_drop (pat : List Char) {l rest : List Char}
    (h : dropLit pat l = some rest) : findLit pat l = some rest := by
  cases l with
  | nil => simpa [findLit] using h
  | cons c cs => simp [findLit, h]

theorem dropLit_chunks_ne {c : Char} (hc : c ≠ 'C') (cs : List Char) :
    dropLit chunksLit (c :: cs) = none := by
  have : ¬ ('C' = c) := fun h => hc h.symm
  simp [chunksLit, dropLit, this]

theorem digit_ne_C {c : Char} (h : isDigitChar c = true) : c ≠ 'C' := by
  intro hc
  subst hc
  exact absurd h (by decide)

theorem findLit_chunks_after_digits (ds : List Char) (tail : List Char)
    (h : ds.all isDigitChar = true) :
    findLit chunksLit (ds ++ ',' :: (chunksLit ++ tail)) = some tail := by
  induction ds with
  | nil =>
    simp only [List.nil_append]
    rw [findLit_cons_of_none (dropLit_chunks_ne (by decide) _)]
    exact findLit_of_drop _ (dropLit_append chunksLit tail)
  | cons d ds ih =>
    have hd : isDigitChar d = true := List.all_eq_true.mp h d (by simp)
    have hds : ds.all isDigitChar = true := by
      rw [List.all_eq_true] at h ⊢
      intro x hx; exact h x (by simp [hx])
    rw [List.cons_append, findLit_cons_of_none (dropLit_chunks_ne (digit_ne_C hd) _)]
    exact ih hds

theorem dropLit_chunks_CK (rest : List Char) :
    dropLit chunksLit ('C' :: 'K' :: rest) = none := by
  simp [chunksLit, dropLit]

theorem findLit_chunks_retx (id : Nat) (tail : List Char) :
    findLit chunksLit (retxHead ++ (natChars id ++ ',' :: (chunksLit ++ tail))) = some tail := by
  simp only [retxHead, List.cons_append, List.nil_append]
  rw [findLit_cons_of_none (dropLit_chunks_ne (by decide) _)]
  rw [findLit_cons_of_none (dropLit_chunks_ne (by decide) _)]
  rw [findLit_cons_of_none (dropLit_chunks_ne (by decide) _)]
  rw [findLit_cons_of_none (dropLit_chunks_ne (by decide) _)]
  rw [findLit_cons_of_none (dropLit_chunks_ne (by decide) _)]
  rw [findLit_cons_of_none (dropLit_chunks_ne (by decide) _)]
  rw [findLit_cons_of_none (dropLit_chunks_ne (by decide) _)]
  rw [findLit_cons_of_none (dropLit_chunks_ne (by decide) _)]
  rw [findLit_cons_of_none (dropLit_chunks_CK _)]
  rw [findLit_cons_of_none (dropLit_chunks_ne (by decide) _)]
  rw [findLit_cons_of_none (dropLit_chunks_ne (by decide) _)]
  exact findLit_chunks_after_digits (natChars id) tail (natChars_all_digits id)

theorem retx_scan_message (id : Nat) (mask : List Bool) :
    retx_scan_block_id (retx_message id mask) = some id := by
  have h1 : dropLit retxHead (retx_message id mask) =
      some (natChars id ++ ',' :: (chunksLit ++ renderRuns (collectRuns mask))) := by
    unfold retx_message
    exact dropLit_append _ _
  have h2 : takeDigits (natChars id ++ ',' :: (chunksLit ++ renderRuns (collectRuns mask))) =
      (natChars id, ',' :: (chunksLit ++ renderRuns (collectRuns mask))) :=
    takeDigits_append (natChars id) _ (natChars_all_digits id) (Or.inr ⟨',', _, rfl, by decide⟩)
  unfold retx_scan_block_id
  rw [h1]
  simp [h2, List.isEmpty_iff, natChars_ne_nil id, digitsToNat_natChars]

/-- Once `chunks_added` has reached 50 with no open range, the loop adds
nothing further. -/
theorem collectRunsAux_saturated (l : List Bool) (i count : Nat) (acc : List (Nat × Nat))
    (h : 50 ≤ count) : collectRunsAux l i count none acc = acc := by
  cases l with
  | nil => simp [collectRunsAux]
  | cons b rest => simp [collectRunsAux, if_pos h]

/-- Core correspondence: while under the 50-run budget, the loop collects
exactly the next `50 - count` maximal missing runs. -/
theorem collectRunsAux_eq_take (l : List Bool) :
    ∀ (i count : Nat) (cur : Option (Nat × Nat)) (acc : List (Nat × Nat)),
      count < 50 →
      collectRunsAux l i count cur acc = acc ++ (specMissingRunsAux l i cur).take (50 - count) := by
  induction l with
  | nil =>
    intro i count cur acc h
    have h1 : 1 ≤ 50 - count := by omega
    cases cur with
    | none => simp [collectRunsAux, specMissingRunsAux]
    | some r =>
      simp only [collectRunsAux, specMissingRunsAux, Option.toList]
      rw [List.take_of_length_le (by simpa using h1)]
  | cons b rest ih =>
    intro i count cur acc h
    have hnot : ¬ 50 ≤ count := by omega
    cases b with
    | true =>
      cases cur with
      | none =>
        simp only [collectRunsAux, if_neg hnot, if_pos rfl]
        rw [ih (i + 1) count none acc h]
        simp [specMissingRunsAux]
      | some r =>
        simp only [collectRunsAux, if_neg hnot]
        by_cases h50 : count + 1 < 50
        · rw [ih (i + 1) (count + 1) none (acc ++ [r]) h50]
          have : 50 - count = (50 - (count + 1)) + 1 := by omega
          simp [specMissingRunsAux, this, List.take_succ_cons]
        · have hc : count + 1 = 50 := by omega
          rw [hc, collectRunsAux_saturated rest (i + 1) 50 (acc ++ [r]) (le_refl 50)]
          have : 50 - count = 1 := by omega
          simp [specMissingRunsAux, this, List.take_succ_cons]
    | false =>
      cases cur with
      | none =>
        simp only [collectRunsAux, if_neg hnot]
        rw [ih (i + 1) count (some (i + 1, i + 1)) acc h]
        simp [specMissingRunsAux]
      | some r =>
        obtain ⟨s, e⟩ := r
        simp only [collectRunsAux, if_neg hnot]
        rw [ih (i + 1) count (some (s, i + 1)) acc h]
        simp [specMissingRunsAux]

example : (mqttsn_publish true [("t", 5)] 5 "t" [9] .q1 [[3, 13, 0]]).result = 0 := by decide
example : (mqttsn_publish true [("t", 5)] 5 "t" [9] .q1 []).result = -1 := by decide
example : publish_frame_count (mqttsn_publish true [("t", 5)] 5 "t" [9] .q1 []).sends = 1 := by
  decide
example : (mqttsn_publish true [("t", 5)] 10 "t" [1] .q2 []).result = 0 ∧
    (mqttsn_publish true [("t", 5)] 10 "t" [1] .q2 []).sends =
      [[8, 12, 64, 0, 5, 0, 10, 1]] := by decide
example :
    (mqttsn_poll true [("sensors", 7)] false (some [10, 12, 32, 0, 7, 0, 42, 1, 2, 3])).sends
      = [] ∧
    (mqttsn_poll true [("sensors", 7)] false (some [10, 12, 32, 0, 7, 0, 42, 1, 2, 3])).delivered
      = [.callback "sensors" [1, 2, 3]] := by decide


/-! Characterization of the QoS-1 PUBACK wait. -/

theorem wait_puback_found (m maxLen : Nat) :
    ∀ (trace : List (List Nat)) (st : WaitSt),
      (wait_for_message MQTTSN_PUBACK m true maxLen trace st).1 =
        match trace.find? (puback_candidate m) with
        | none => .timedOut
        | some f => if f.length ≤ maxLen then .frame f else .bufferTooSmall := by
  intro trace
  induction trace with
  | nil => intro st; rfl
  | cons f rest ih =>
    intro st
    by_cases hlen : f.length ≤ 2
    · have hcand : puback_candidate m f = false := by
        simp only [puback_candidate]
        exact decide_eq_false (fun h => by omega)
      rw [List.find?_cons_of_neg _ (by simp [hcand])]
      rw [show wait_for_message MQTTSN_PUBACK m true maxLen (f :: rest) st =
            wait_for_message MQTTSN_PUBACK m true maxLen rest st from by
          simp [wait_for_message, hlen]]
      exact ih st
    · by_cases ht : f.getD 1 0 = MQTTSN_PUBACK
      · have ht' : f[1]?.getD 0 = 13 := by simpa [MQTTSN_PUBACK] using ht
        by_cases h7 : 7 ≤ f.length
        · by_cases hid : be16 (f.getD 4 0) (f.getD 5 0) = m
          · have hid' : be16 (f[4]?.getD 0) (f[5]?.getD 0) = m := by simpa [be16] using hid
            have hcand : puback_candidate m f = true :=
              decide_eq_true ⟨ht, by omega, Or.inr hid⟩
            rw [List.find?_cons_of_pos _ hcand]
            by_cases hm : f.length ≤ maxLen <;>
              simp [wait_for_message, hlen, ht', h7, hid', hm,
              MQTTSN_PUBACK, MQTTSN_REGACK, MQTTSN_SUBACK, MQTTSN_PINGRESP, MQTTSN_PUBLISH, MQTTSN_REGISTER]
          · have hid' : ¬ be16 (f[4]?.getD 0) (f[5]?.getD 0) = m := by simpa [be16] using hid
            have hcand : puback_candidate m f = false := by
              simp only [puback_candidate]
              exact decide_eq_false (fun h => by
                rcases h.2.2 with h' | h' <;> [omega; exact hid h'])
            rw [List.find?_cons_of_neg _ (by simp [hcand])]
            rw [show wait_for_message MQTTSN_PUBACK m true maxLen (f :: rest) st =
                  wait_for_message MQTTSN_PUBACK m true maxLen rest st from by
                simp [wait_for_message, hlen, ht', h7, hid',
                MQTTSN_PUBACK, MQTTSN_REGACK, MQTTSN_SUBACK, MQTTSN_PINGRESP, MQTTSN_PUBLISH, MQTTSN_REGISTER]]
            exact ih st
        · have hcand : puback_candidate m f = true :=
            decide_eq_true ⟨ht, by omega, Or.inl (by omega)⟩
          rw [List.find?_cons_of_pos _ hcand]
          by_cases hm : f.length ≤ maxLen <;>
            simp [wait_for_message, hlen, ht', h7, hm,
              MQTTSN_PUBACK, MQTTSN_REGACK, MQTTSN_SUBACK, MQTTSN_PINGRESP, MQTTSN_PUBLISH, MQTTSN_REGISTER]
      · have ht' : ¬ f[1]?.getD 0 = 13 := by simpa [MQTTSN_PUBACK] using ht
        have hcand : puback_candidate m f = false := by
          simp only [puback_candidate]
          exact decide_eq_false (fun h => ht h.1)
        rw [List.find?_cons_of_neg _ (by simp [hcand])]
        by_cases hping : f.getD 1 0 = MQTTSN_PINGRESP
        · have hping' : f[1]?.getD 0 = 23 := by simpa [MQTTSN_PINGRESP] using hping
          rw [show wait_for_message MQTTSN_PUBACK m true maxLen (f :: rest) st =
              wait_for_message MQTTSN_PUBACK m true maxLen rest st from by
            simp [wait_for_message, hlen, ht', hping',
            MQTTSN_PUBACK, MQTTSN_REGACK, MQTTSN_SUBACK, MQTTSN_PINGRESP, MQTTSN_PUBLISH, MQTTSN_REGISTER]]
          exact ih st
        · have hping' : ¬ f[1]?.getD 0 = 23 := by simpa [MQTTSN_PINGRESP] using hping
          by_cases hpub : f.getD 1 0 = MQTTSN_PUBLISH
          · have hpub' : f[1]?.getD 0 = 12 := by simpa [MQTTSN_PUBLISH] using hpub
            rw [show wait_for_message MQTTSN_PUBACK m true maxLen (f :: rest) st =
                wait_for_message MQTTSN_PUBACK m true maxLen rest
                  { st with delivered := st.delivered ++ wait_dispatch_publish st.reg f } from by
              simp [wait_for_message, hlen, ht', hping', hpub',
              MQTTSN_PUBACK, MQTTSN_REGACK, MQTTSN_SUBACK, MQTTSN_PINGRESP, MQTTSN_PUBLISH, MQTTSN_REGISTER]]
            exact ih _
          · have hpub' : ¬ f[1]?.getD 0 = 12 := by simpa [MQTTSN_PUBLISH] using hpub
            by_cases hregi : f.getD 1 0 = MQTTSN_REGISTER
            · have hregi' : f[1]?.getD 0 = 10 := by simpa [MQTTSN_REGISTER] using hregi
              rw [show wait_for_message MQTTSN_PUBACK m true maxLen (f :: rest) st =
                  wait_for_message MQTTSN_PUBACK m true maxLen rest
                    { st with reg := (handle_inbound_register st.reg f).1
                              sends := st.sends ++ (handle_inbound_register st.reg f).2 } from by
                simp [wait_for_message, hlen, ht', hping', hpub', hregi',
                MQTTSN_PUBACK, MQTTSN_REGACK, MQTTSN_SUBACK, MQTTSN_PINGRESP, MQTTSN_PUBLISH, MQTTSN_REGISTER]]
              exact ih _
            · have hregi' : ¬ f[1]?.getD 0 = 10 := by simpa [MQTTSN_REGISTER] using hregi
              rw [show wait_for_message MQTTSN_PUBACK m true maxLen (f :: rest) st =
                  wait_for_message MQTTSN_PUBACK m true maxLen rest st from by
                simp [wait_for_message, hlen, ht', hping', hpub', hregi',
                MQTTSN_PUBACK, MQTTSN_REGACK, MQTTSN_SUBACK, MQTTSN_PINGRESP, MQTTSN_PUBLISH, MQTTSN_REGISTER]]
              exact ih st

theorem handle_register_sends (reg : List (String × Nat)) (f : List Nat) :
    ∀ g ∈ (handle_inbound_register reg f).2, g.getD 1 0 = MQTTSN_REGACK := by
  intro g hg
  unfold handle_inbound_register at hg
  by_cases h : 7 ≤ f.length
  · simp only [if_pos h] at hg
    simp only [List.mem_singleton] at hg
    subst hg
    rfl
  · simp [if_neg h] at hg

theorem wait_sends_structure (expT expId : Nat) (matchId : Bool) (maxLen : Nat) :
    ∀ (trace : List (List Nat)) (st : WaitSt),
      ∃ ws, (wait_for_message expT expId matchId maxLen trace st).2.sends = st.sends ++ ws ∧
        ∀ g ∈ ws, g.getD 1 0 = MQTTSN_REGACK := by
  intro trace
  induction trace with
  | nil => intro st; exact ⟨[], by simp [wait_for_message], by simp⟩
  | cons f rest ih =>
    intro st
    simp only [wait_for_message]
    split
    · exact ih st
    · split
      · repeat' split
        all_goals first
          | exact ih st
          | exact ⟨[], by simp, by simp⟩
      · split
        · exact ih st
        · split
          · obtain ⟨ws, h1, h2⟩ :=
              ih { st with delivered := st.delivered ++ wait_dispatch_publish st.reg f }
            exact ⟨ws, by simpa using h1, h2⟩
          · split
            · obtain ⟨ws, h1, h2⟩ :=
                ih { st with reg := (handle_inbound_register st.reg f).1
                             sends := st.sends ++ (handle_inbound_register st.reg f).2 }
              refine ⟨(handle_inbound_register st.reg f).2 ++ ws, ?_, ?_⟩
              · simpa [List.append_assoc] using h1
              · intro g hg
                rcases List.mem_append.mp hg with h | h
                · exact handle_register_sends _ _ g h
                · exact h2 g h
            · exact ih st

theorem build_publish_packet_type (topic_id mid : Nat) (qos : Qos) (payload : List Nat) :
    (build_publish_packet topic_id mid qos payload).getD 1 0 = MQTTSN_PUBLISH := rfl

theorem alloc_msg_id_publish_fst (m : Nat) : (alloc_msg_id_publish m).1 = m := rfl

theorem publish_q1_eq (reg : List (String × Nat)) (topic : String) (m : Nat)
    (payload : List Nat) (trace : List (List Nat)) (hfit : 7 + payload.length ≤ 256) :
    mqttsn_publish true reg m topic payload .q1 trace =
      { result :=
          match (wait_for_message MQTTSN_PUBACK m true 16 trace
              ⟨reg, [build_publish_packet (topic_registry_find reg topic) m Qos.q1 payload], []⟩).1
            with
          | .frame _ => MQTTSN_OK
          | .bufferTooSmall => MQTTSN_ERROR
          | .timedOut => MQTTSN_ERROR
        sends := (wait_for_message MQTTSN_PUBACK m true 16 trace
            ⟨reg, [build_publish_packet (topic_registry_find reg topic) m Qos.q1 payload], []⟩).2.sends
        delivered := (wait_for_message MQTTSN_PUBACK m true 16 trace
            ⟨reg, [build_publish_packet (topic_registry_find reg topic) m Qos.q1 payload], []⟩).2.delivered
        reg := (wait_for_message MQTTSN_PUBACK m true 16 trace
            ⟨reg, [build_publish_packet (topic_registry_find reg topic) m Qos.q1 payload], []⟩).2.reg
        msg_id := (alloc_msg_id_publish m).2 } := by
  have hnot : ¬ (7 + payload.length > 256) := by omega
  cases hw : (wait_for_message MQTTSN_PUBACK m true 16 trace
      ⟨reg, [build_publish_packet (topic_registry_find reg topic) m Qos.q1 payload], []⟩).1 <;>
    simp [mqttsn_publish, hnot, alloc_msg_id_publish_fst, hw]

/-- Claim C1 (amended): a QoS-1 publish sends the PUBLISH exactly once —
there is no retransmission machinery and no DeliveryFailed report — and
returns `MQTTSN_OK` exactly when the first inbound PUBACK frame accepted by
the wait (length ≥ 7 with matching big-endian msg-id at bytes 4-5, or any
PUBACK shorter than 7 bytes, which passes the id check vacuously) fits the
16-byte ack buffer; in every other case, timeout included, it returns
`MQTTSN_ERROR` immediately after the single 1 s wait. -/
theorem publish_qos1_ok_iff_puback (reg : List (String × Nat)) (topic : String) (m : Nat)
    (payload : List Nat) (trace : List (List Nat))
    (hreg : topic_registry_find reg topic ≠ 0)
    (hfit : 7 + payload.length ≤ 256) :
    ((mqttsn_publish true reg m topic payload .q1 trace).result = MQTTSN_OK ↔
      ∃ f, trace.find? (puback_candidate m) = some f ∧ f.length ≤ 16) ∧
    publish_frame_count (mqttsn_publish true reg m topic payload .q1 trace).sends = 1 ∧
    ((mqttsn_publish true reg m topic payload .q1 trace).result = MQTTSN_OK ∨
     (mqttsn_publish true reg m topic payload .q1 trace).result = MQTTSN_ERROR) := by
  rw [publish_q1_eq reg topic m payload trace hfit]
  have hfound := wait_puback_found m 16 trace
    ⟨reg, [build_publish_packet (topic_registry_find reg topic) m Qos.q1 payload], []⟩
  obtain ⟨ws, hws, hall⟩ := wait_sends_structure MQTTSN_PUBACK m true 16 trace
    ⟨reg, [build_publish_packet (topic_registry_find reg topic) m Qos.q1 payload], []⟩
  refine ⟨?_, ?_, ?_⟩
  · rw [hfound]
    cases hf : trace.find? (puback_candidate m) with
    | none =>
      simp [MQTTSN_OK, MQTTSN_ERROR]
    | some f =>
      by_cases hm : f.length ≤ 16
      · simp [hm, MQTTSN_OK]
      · simp [hm, MQTTSN_OK, MQTTSN_ERROR]
  · show publish_frame_count (wait_for_message MQTTSN_PUBACK m true 16 trace
        ⟨reg, [build_publish_packet (topic_registry_find reg topic) m Qos.q1 payload], []⟩).2.sends
      = 1
    rw [hws]
    unfold publish_frame_count
    rw [List.filter_append]
    have hb : (build_publish_packet (topic_registry_find reg topic) m
        Qos.q1 payload)[1]?.getD 0 = MQTTSN_PUBLISH := by
      simpa using build_publish_packet_type (topic_registry_find reg topic) m Qos.q1 payload
    have h1 : List.filter (fun f => decide (f.getD 1 0 = MQTTSN_PUBLISH))
        [build_publish_packet (topic_registry_find reg topic) m Qos.q1 payload] =
        [build_publish_packet (topic_registry_find reg topic) m Qos.q1 payload] := by
      simp [hb]
    have h2 : List.filter (fun f => decide (f.getD 1 0 = MQTTSN_PUBLISH)) ws = [] := by
      rw [List.filter_eq_nil_iff]
      intro g hg
      simp only [decide_eq_true_eq]
      rw [hall g hg]
      decide
    rw [h1, h2]
    rfl
  · rw [hfound]
    cases hf : trace.find? (puback_candidate m) with
    | none => simp
    | some f => by_cases hm : f.length ≤ 16 <;> simp [hm]

/-- Claim C1 counterexample: the code returns `MQTTSN_OK` for a 3-byte
PUBACK frame that carries no msg-id at all (refuting "Ok if and only if a
PUBACK whose msg_id matches the allocated msg_id is received"), and on
timeout it sends the PUBLISH exactly once and reports `MQTTSN_ERROR`
immediately — there are no retransmissions and no DeliveryFailed path. -/
theorem publish_qos1_counterexample :
    (mqttsn_publish true [("t", 5)] 5 "t" [9] .q1 [[3, 13, 0]]).result = MQTTSN_OK ∧
    ([3, 13, 0] : List Nat).length < 7 ∧
    (mqttsn_publish true [("t", 5)] 5 "t" [9] .q1 []).result = MQTTSN_ERROR ∧
    publish_frame_count (mqttsn_publish true [("t", 5)] 5 "t" [9] .q1 []).sends = 1 := by
  refine ⟨by decide, by decide, by decide, by decide⟩

/-- Witness for `publish_qos1_ok_iff_puback` at a concrete registry, trace
and payload. -/
theorem publish_qos1_ok_iff_puback_witness :
    topic_registry_find [("t", 5)] "t" ≠ 0 ∧
    7 + [(9 : Nat)].length ≤ 256 ∧
    (((mqttsn_publish true [("t", 5)] 10 "t" [9] .q1 [[7, 13, 0, 5, 0, 10, 0]]).result = MQTTSN_OK ↔
      ∃ f, [[7, 13, 0, 5, 0, 10, 0]].find? (puback_candidate 10) = some f ∧ f.length ≤ 16) ∧
    publish_frame_count (mqttsn_publish true [("t", 5)] 10 "t" [9] .q1
      [[7, 13, 0, 5, 0, 10, 0]]).sends = 1 ∧
    ((mqttsn_publish true [("t", 5)] 10 "t" [9] .q1 [[7, 13, 0, 5, 0, 10, 0]]).result = MQTTSN_OK ∨
     (mqttsn_publish true [("t", 5)] 10 "t" [9] .q1 [[7, 13, 0, 5, 0, 10, 0]]).result =
       MQTTSN_ERROR)) :=
  ⟨by decide, by decide, publish_qos1_ok_iff_puback [("t", 5)] "t" 10 [9]
    [[7, 13, 0, 5, 0, 10, 0]] (by decide) (by decide)⟩

/-- Claim C7 (amended): a QoS-2 publish performs no handshake at all: the
client returns `MQTTSN_OK` immediately after sending the single PUBLISH
frame, awaits no PUBREC, emits no PUBREL and awaits no PUBCOMP — the
inbound trace is never consulted. -/
theorem publish_qos2_no_handshake (reg : List (String × Nat)) (topic : String) (m : Nat)
    (payload : List Nat) (trace : List (List Nat))
    (hreg : topic_registry_find reg topic ≠ 0)
    (hfit : 7 + payload.length ≤ 256) :
    (mqttsn_publish true reg m topic payload .q2 trace).result = MQTTSN_OK ∧
    (mqttsn_publish true reg m topic payload .q2 trace).sends =
      [build_publish_packet (topic_registry_find reg topic) m Qos.q2 payload] ∧
    (∀ g ∈ (mqttsn_publish true reg m topic payload .q2 trace).sends,
      g.getD 1 0 = MQTTSN_PUBLISH ∧ g.getD 1 0 ≠ MQTTSN_PUBREL) ∧
    (mqttsn_publish true reg m topic payload .q2 trace).delivered = [] := by
  have hnot : ¬ (7 + payload.length > 256) := by omega
  have heq : mqttsn_publish true reg m topic payload .q2 trace =
      ⟨MQTTSN_OK, [build_publish_packet (topic_registry_find reg topic) m Qos.q2 payload],
        [], reg, (alloc_msg_id_publish m).2⟩ := by
    simp [mqttsn_publish, hnot, alloc_msg_id_publish_fst]
  rw [heq]
  refine ⟨rfl, rfl, ?_, rfl⟩
  intro g hg
  simp only [List.mem_singleton] at hg
  subst hg
  exact ⟨build_publish_packet_type _ _ _ _, by
    rw [build_publish_packet_type]
    decide⟩

/-- Claim C7 counterexample: with an empty inbound trace (no PUBREC can
ever arrive) the QoS-2 publish still returns `MQTTSN_OK`, having sent only
the PUBLISH — no PUBREL is emitted, so the claimed PUBREC/PUBREL/PUBCOMP
handshake does not happen before Ok. -/
theorem publish_qos2_counterexample :
    (mqttsn_publish true [("t", 5)] 10 "t" [1] .q2 []).result = MQTTSN_OK ∧
    (mqttsn_publish true [("t", 5)] 10 "t" [1] .q2 []).sends = [[8, 12, 64, 0, 5, 0, 10, 1]] ∧
    ([8, 12, 64, 0, 5, 0, 10, 1] : List Nat).getD 1 0 = MQTTSN_PUBLISH ∧
    ([8, 12, 64, 0, 5, 0, 10, 1] : List Nat).getD 1 0 ≠ MQTTSN_PUBREL := by
  refine ⟨by decide, by decide, by decide, by decide⟩

/-- Witness for `publish_qos2_no_handshake` at a concrete registry and
payload. -/
theorem publish_qos2_no_handshake_witness :
    topic_registry_find [("t", 5)] "t" ≠ 0 ∧
    7 + [(1 : Nat)].length ≤ 256 ∧
    ((mqttsn_publish true [("t", 5)] 10 "t" [1] .q2 [[3, 15, 0]]).result = MQTTSN_OK ∧
    (mqttsn_publish true [("t", 5)] 10 "t" [1] .q2 [[3, 15, 0]]).sends =
      [build_publish_packet (topic_registry_find [("t", 5)] "t") 10 Qos.q2 [1]] ∧
    (∀ g ∈ (mqttsn_publish true [("t", 5)] 10 "t" [1] .q2 [[3, 15, 0]]).sends,
      g.getD 1 0 = MQTTSN_PUBLISH ∧ g.getD 1 0 ≠ MQTTSN_PUBREL) ∧
    (mqttsn_publish true [("t", 5)] 10 "t" [1] .q2 [[3, 15, 0]]).delivered = []) :=
  ⟨by decide, by decide, publish_qos2_no_handshake [("t", 5)] "t" 10 [1] [[3, 15, 0]]
    (by decide) (by decide)⟩

theorem poll_sends_types (connected : Bool) (reg : List (String × Nat)) (ping_due : Bool)
    (packet : Option (List Nat)) :
    ∀ g ∈ (mqttsn_poll connected reg ping_due packet).sends,
      g.getD 1 0 = MQTTSN_PINGREQ ∨ g.getD 1 0 = MQTTSN_REGACK := by
  intro g hg
  have hping : ∀ x ∈ (if ping_due then [[2, MQTTSN_PINGREQ]] else ([] : List (List Nat))),
      x.getD 1 0 = MQTTSN_PINGREQ := by
    intro x hx
    by_cases hp : ping_due
    · rw [if_pos hp] at hx
      simp only [List.mem_singleton] at hx
      subst hx
      rfl
    · rw [if_neg hp] at hx
      simp at hx
  cases connected with
  | false => simp [mqttsn_poll] at hg
  | true =>
    cases packet with
    | none =>
      simp only [mqttsn_poll] at hg
      rw [if_neg (by simp)] at hg
      exact Or.inl (hping g hg)
    | some b =>
      simp only [mqttsn_poll] at hg
      rw [if_neg (by simp)] at hg
      repeat' split at hg
      all_goals
        first
          | exact Or.inl (hping g hg)
          | (have hgg : g = [2, MQTTSN_PINGREQ] := by simpa using hg
             subst hgg
             exact Or.inl rfl)
          | exact absurd hg (List.not_mem_nil g)
          | (rcases List.mem_append.mp hg with h | h <;>
              first
                | exact Or.inl (hping g h)
                | (have hgg : g = [2, MQTTSN_PINGREQ] := by simpa using h
                   subst hgg
                   exact Or.inl rfl)
                | exact absurd h (List.not_mem_nil g)
                | exact Or.inr (handle_register_sends reg b g h))

theorem poll_keeps_reg_on_publish (connected : Bool) (reg : List (String × Nat))
    (ping_due : Bool) (b : List Nat) (hb : b.getD 1 0 = MQTTSN_PUBLISH) :
    (mqttsn_poll connected reg ping_due (some b)).reg = reg := by
  cases connected with
  | false => simp [mqttsn_poll]
  | true =>
    have hb' : b[1]?.getD 0 = 12 := by simpa [MQTTSN_PUBLISH] using hb
    simp only [mqttsn_poll]
    rw [if_neg (by simp)]
    repeat' split
    all_goals first
      | rfl
      | (exact absurd hb' (by assumption))
      | (exact absurd (by simpa [MQTTSN_PUBLISH] using hb : b[1]?.getD 0 = MQTTSN_PUBLISH)
          (by assumption))

/-- Claim C2 (amended): `mqttsn_poll` never emits a PUBACK — every frame it
sends is a PINGREQ (keep-alive) or a REGACK (answer to a gateway REGISTER);
for an inbound PUBLISH it changes no state at all (the registry is
untouched and no record of seen msg-ids exists), so a duplicate PUBLISH
with the same msg-id is processed identically and its payload is delivered
to the callback again: there is no deduplication window. -/
theorem poll_no_puback_no_dedup (connected : Bool) (reg : List (String × Nat))
    (ping_due : Bool) (packet : Option (List Nat)) :
    (∀ g ∈ (mqttsn_poll connected reg ping_due packet).sends,
      g.getD 1 0 = MQTTSN_PINGREQ ∨ g.getD 1 0 = MQTTSN_REGACK) ∧
    (∀ b, packet = some b → b.getD 1 0 = MQTTSN_PUBLISH →
      (mqttsn_poll connected reg ping_due packet).reg = reg ∧
      mqttsn_poll connected (mqttsn_poll connected reg ping_due packet).reg ping_due packet =
        mqttsn_poll connected reg ping_due packet) := by
  refine ⟨poll_sends_types connected reg ping_due packet, ?_⟩
  intro b hpkt hb
  subst hpkt
  have hkeep := poll_keeps_reg_on_publish connected reg ping_due b hb
  exact ⟨hkeep, by rw [hkeep]⟩

/-- Claim C2 counterexample: a QoS-1 PUBLISH (flags 0x20, msg-id 42) for
registered topic id 7 is dispatched by poll with NO PUBACK emitted (the
send list is empty), and polling the identical duplicate frame again
delivers the payload to the callback a second time — no deduplication of
the last 16 msg-ids exists. -/
theorem poll_qos1_counterexample :
    ([10, 12, 32, 0, 7, 0, 42, 1, 2, 3] : List Nat).getD 1 0 = MQTTSN_PUBLISH ∧
    ([10, 12, 32, 0, 7, 0, 42, 1, 2, 3] : List Nat).getD 2 0 &&& 0x60 = 0x20 ∧
    (mqttsn_poll true [("sensors", 7)] false (some [10, 12, 32, 0, 7, 0, 42, 1, 2, 3])).sends
      = [] ∧
    (mqttsn_poll true [("sensors", 7)] false (some [10, 12, 32, 0, 7, 0, 42, 1, 2, 3])).delivered
      = [.callback "sensors" [1, 2, 3]] ∧
    (mqttsn_poll true
      (mqttsn_poll true [("sensors", 7)] false
        (some [10, 12, 32, 0, 7, 0, 42, 1, 2, 3])).reg false
      (some [10, 12, 32, 0, 7, 0, 42, 1, 2, 3])).delivered
      = [.callback "sensors" [1, 2, 3]] := by
  refine ⟨by decide, by decide, by decide, by decide, by decide⟩

/-- Witness for `poll_no_puback_no_dedup` at a concrete registry and QoS-1
PUBLISH frame. -/
theorem poll_no_puback_no_dedup_witness :
    (some [10, 12, 32, 0, 7, 0, 42, 1, 2, 3] = some [10, 12, 32, 0, 7, 0, 42, 1, 2, 3] ∧
      ([10, 12, 32, 0, 7, 0, 42, 1, 2, 3] : List Nat).getD 1 0 = MQTTSN_PUBLISH) ∧
    ((mqttsn_poll true [("sensors", 7)] false
        (some [10, 12, 32, 0, 7, 0, 42, 1, 2, 3])).reg = [("sensors", 7)] ∧
      mqttsn_poll true
        (mqttsn_poll true [("sensors", 7)] false
          (some [10, 12, 32, 0, 7, 0, 42, 1, 2, 3])).reg false
        (some [10, 12, 32, 0, 7, 0, 42, 1, 2, 3]) =
      mqttsn_poll true [("sensors", 7)] false (some [10, 12, 32, 0, 7, 0, 42, 1, 2, 3])) :=
  ⟨⟨rfl, by decide⟩,
    (poll_no_puback_no_dedup true [("sensors", 7)] false
      (some [10, 12, 32, 0, 7, 0, 42, 1, 2, 3])).2
      [10, 12, 32, 0, 7, 0, 42, 1, 2, 3] rfl (by decide)⟩

example : (mqttsn_poll true [] false (some [9, 10, 0, 9, 0, 1, 65])).reg = [("A", 9)] := by
  decide
example : (mqttsn_poll true [] false (some [9, 10, 0, 9, 0, 1, 65])).sends =
    [[7, 11, 0, 9, 0, 1, 0]] := by decide

/-- Claim C8 (amended): all allocation sites share the single `msg_id`
counter and emit its current value; the publish-path allocation keeps the
counter in 1..65535 (so a run of publish allocations from a counter in that
range never emits 0), but the register/subscribe allocation is a bare
`msg_id++` that wraps 65535 → 0, after which the next allocation emits
msg_id 0 on the wire. -/
theorem msg_id_alloc_behavior (m n : Nat) (h1 : 1 ≤ m) (h2 : m ≤ 65535) :
    (∀ x ∈ publish_alloc_seq m n, 1 ≤ x ∧ x ≤ 65535) ∧
    (alloc_msg_id_register m).1 = m ∧
    (alloc_msg_id_register m).2 = (m + 1) % 65536 ∧
    (alloc_msg_id_register 65535).2 = 0 := by
  refine ⟨?_, rfl, rfl, by decide⟩
  induction n generalizing m with
  | zero => intro x hx; simp [publish_alloc_seq] at hx
  | succ k ih =>
    intro x hx
    simp only [publish_alloc_seq, List.mem_cons] at hx
    rcases hx with hx | hx
    · subst hx
      exact ⟨h1, h2⟩
    · have hnext : 1 ≤ (alloc_msg_id_publish m).2 ∧ (alloc_msg_id_publish m).2 ≤ 65535 := by
        simp only [alloc_msg_id_publish]
        split <;> omega
      exact ih (alloc_msg_id_publish m).2 hnext.1 hnext.2 x hx

/-- Claim C8 counterexample: starting from counter value 65535 (reachable
by increments from the initial 1), the register-path allocation emits 65535
and wraps the uint16 counter to 0; the NEXT register allocation then emits
msg_id 0, and the REGISTER frame built from it carries 0x0000 at its msg-id
bytes 4-5 — an emitted frame with msg_id 0, which the claim rules out. -/
theorem msg_id_zero_counterexample :
    (alloc_msg_id_register 65535).2 = 0 ∧
    (alloc_msg_id_register (alloc_msg_id_register 65535).2).1 = 0 ∧
    (build_register_packet "pico/chunks" 0).getD 4 1 = 0 ∧
    (build_register_packet "pico/chunks" 0).getD 5 1 = 0 := by
  refine ⟨by decide, by decide, by decide, by decide⟩

/-- Witness for `msg_id_alloc_behavior` at the wrap boundary. -/
theorem msg_id_alloc_behavior_witness :
    (1 ≤ 65535 ∧ 65535 ≤ 65535) ∧
    ((∀ x ∈ publish_alloc_seq 65535 3, 1 ≤ x ∧ x ≤ 65535) ∧
      (alloc_msg_id_register 65535).1 = 65535 ∧
      (alloc_msg_id_register 65535).2 = (65535 + 1) % 65536 ∧
      (alloc_msg_id_register 65535).2 = 0) :=
  ⟨⟨by decide, by decide⟩, msg_id_alloc_behavior 65535 3 (by decide) (by decide)⟩

/-- Claim C9 (amended): when the registry already holds
MAX_REGISTERED_TOPICS = 20 entries, `topic_registry_add` returns false and
leaves the registry unchanged for EVERY topic — there is no
least-recently-used replacement, and even an update of an existing name is
refused at capacity (the full check precedes the existence check); below
capacity the call always succeeds. -/
theorem registry_add_at_capacity (reg : List (String × Nat)) (topic : String) (id : Nat) :
    (MAX_REGISTERED_TOPICS ≤ reg.length → topic_registry_add reg topic id = (false, reg)) ∧
    (reg.length < MAX_REGISTERED_TOPICS → (topic_registry_add reg topic id).1 = true) := by
  constructor
  · intro h
    simp [topic_registry_add, h]
  · intro h
    have h' : ¬ MAX_REGISTERED_TOPICS ≤ reg.length := by omega
    simp only [topic_registry_add, if_neg h']
    split <;> rfl

/-- Claim C9 counterexample: with the registry at its maximum of 20
entries, inserting a mapping for a fresh topic name FAILS (returns false)
and the registry is unchanged — no least-recently-used entry is replaced. -/
theorem registry_full_counterexample :
    reg20.length = MAX_REGISTERED_TOPICS ∧
    topic_registry_find reg20 "sensors/new" = 0 ∧
    topic_registry_add reg20 "sensors/new" 99 = (false, reg20) := by
  refine ⟨by decide, by decide, by decide⟩

/-- Witness for `registry_add_at_capacity` at the full test registry and at
an empty one. -/
theorem registry_add_at_capacity_witness :
    (MAX_REGISTERED_TOPICS ≤ reg20.length ∧
      topic_registry_add reg20 "x" 1 = (false, reg20)) ∧
    (([] : List (String × Nat)).length < MAX_REGISTERED_TOPICS ∧
      (topic_registry_add [] "x" 1).1 = true) :=
  ⟨⟨by decide, (registry_add_at_capacity reg20 "x" 1).1 (by decide)⟩,
   ⟨by decide, (registry_add_at_capacity [] "x" 1).2 (by decide)⟩⟩

/-- Claim C4 (amended): `send_block_transfer_qos` rejects exactly the
objects with `len > BLOCK_BUFFER_SIZE = 60000`; every accepted object of
size n is split into ceil(n / 120) chunks (so sizes 1 and 120 give 1 chunk,
121 gives 2, and size 0 is ACCEPTED with 0 chunks sent — the empty-object
rejection lives in the file entry point `send_image_file_qos`, not here);
because accepted sizes are capped at 60000, `total_parts` never exceeds
500, so the `total_parts > 1000` rejection branch is unreachable — no
accepted request can yield total_parts = 1000. -/
theorem send_chunk_count (block_id : Nat) (data : List Nat) :
    (data.length > BLOCK_BUFFER_SIZE ↔
      send_block_transfer_qos block_id data = .rejected_too_large) ∧
    send_block_transfer_qos block_id data ≠ .rejected_too_many_chunks ∧
    (data.length ≤ BLOCK_BUFFER_SIZE →
      ∃ cs, send_block_transfer_qos block_id data = .sent cs ∧
        cs.length = (data.length + chunk_data_size - 1) / chunk_data_size ∧
        cs.length ≤ 500) := by
  by_cases h : data.length > BLOCK_BUFFER_SIZE
  · refine ⟨⟨fun _ => by simp [send_block_transfer_qos, h], fun _ => h⟩, ?_, ?_⟩
    · simp [send_block_transfer_qos, h]
    · intro h'
      exact absurd h (by omega)
  · have htp : sbtq_total_parts data.length ≤ 500 := by
      unfold sbtq_total_parts chunk_data_size BLOCK_CHUNK_SIZE block_header_size
      simp only [BLOCK_BUFFER_SIZE] at h
      omega
    have hle : ¬ sbtq_total_parts data.length > BLOCK_MAX_CHUNKS := by
      unfold BLOCK_MAX_CHUNKS
      omega
    have hsent : send_block_transfer_qos block_id data =
        .sent ((List.range (sbtq_total_parts data.length)).map
          (fun k => sbtq_chunk block_id (sbtq_total_parts data.length) data (k + 1))) := by
      simp [send_block_transfer_qos, h, hle]
    refine ⟨⟨fun h' => absurd h' h, fun h' => ?_⟩, ?_, ?_⟩
    · rw [hsent] at h'
      exact absurd h' (by simp)
    · rw [hsent]
      simp
    · intro _
      refine ⟨_, hsent, ?_, ?_⟩
      · simp [sbtq_total_parts]
      · simpa using htp

/-- Claim C4 counterexample: an object of size 0 is NOT rejected — the call
succeeds sending 0 chunks (only the file entry point rejects empty files);
and no request yielding total_parts = 1000 is ever accepted: the smallest
length needing 1000 chunks is 119881 > 60000, which the size check rejects
first, so the 1000-chunk boundary of the claim is unreachable. -/
theorem send_boundaries_counterexample :
    send_block_transfer_qos 7 [] = .sent [] ∧
    sbtq_total_parts 119881 = 1000 ∧
    send_block_transfer_qos 7 (List.replicate 119881 0) = .rejected_too_large := by
  refine ⟨by decide, by decide, ?_⟩
  unfold send_block_transfer_qos
  rw [List.length_replicate]
  norm_num [BLOCK_BUFFER_SIZE]

/-- Witness for `send_chunk_count` at a 121-byte object (2 chunks). -/
theorem send_chunk_count_witness :
    (List.replicate 121 (0 : Nat)).length ≤ BLOCK_BUFFER_SIZE ∧
    (∃ cs, send_block_transfer_qos 3 (List.replicate 121 0) = .sent cs ∧
      cs.length = ((List.replicate 121 (0 : Nat)).length + chunk_data_size - 1) /
        chunk_data_size ∧
      cs.length ≤ 500) :=
  ⟨by decide, (send_chunk_count 3 (List.replicate 121 0)).2.2 (by decide)⟩

/-- Claim C5 (amended): `process_block_chunk` ignores packets shorter than
the 8-byte header, leaving the assembly untouched; but it performs NO
`data_len ≤ CHUNK_PAYLOAD = 120` check — the only storage guard is
`offset + data_len ≤ BLOCK_BUFFER_SIZE = 60000`, so oversized declared
lengths up to that bound are accepted.  Every chunk it does store is
written at offset `(part_num-1)·120` with exactly `data_len` bytes and
`offset + data_len ≤ 60000`. -/
theorem process_chunk_write_bounds (now_ms : Nat) (st : Assembly) (data : List Nat) :
    (data.length < block_header_size →
      process_block_chunk now_ms st data = ⟨st, none, none⟩) ∧
    (∀ o l, (process_block_chunk now_ms st data).write = some (o, l) →
      o = ((parse_block_header data).part_num - 1) * chunk_data_size ∧
      l = (parse_block_header data).data_len ∧
      o + l ≤ BLOCK_BUFFER_SIZE) := by
  constructor
  · intro h
    simp [process_block_chunk, h]
  · intro o l hw
    unfold process_block_chunk at hw
    split at hw
    · exact absurd hw (by simp)
    · simp only [] at hw
      repeat' split at hw
      all_goals first
        | (simp only [Option.some.injEq, Prod.mk.injEq] at hw
           obtain ⟨ho, hl⟩ := hw
           subst ho
           subst hl
           exact ⟨rfl, rfl, by assumption⟩)
        | simp at hw

/-- Claim C5 counterexample: a chunk whose header declares
`data_len = 121 > CHUNK_PAYLOAD = 120` is nevertheless accepted and stored
(the write of 121 bytes at offset 0 happens), refuting "accepts a chunk
only if ... the header's data_len is at most 120". -/
theorem process_chunk_oversize_counterexample :
    (parse_block_header ([1, 0, 1, 0, 1, 0, 121, 0] ++ List.replicate 121 7)).data_len = 121 ∧
    chunk_data_size = 120 ∧
    (process_block_chunk 0 Assembly.initial
      ([1, 0, 1, 0, 1, 0, 121, 0] ++ List.replicate 121 7)).write = some (0, 121) := by
  refine ⟨by decide, by decide, by decide⟩

/-- Witness for `process_chunk_write_bounds`: a short packet leaves the
assembly unchanged, and a stored chunk's write satisfies the offset/bound
equations. -/
theorem process_chunk_write_bounds_witness :
    (([1, 2, 3] : List Nat).length < block_header_size ∧
      process_block_chunk 0 Assembly.initial [1, 2, 3] = ⟨Assembly.initial, none, none⟩) ∧
    ((process_block_chunk 0 Assembly.initial
        ([1, 0, 1, 0, 1, 0, 121, 0] ++ List.replicate 121 7)).write = some (0, 121) ∧
      (0 = ((parse_block_header ([1, 0, 1, 0, 1, 0, 121, 0] ++ List.replicate 121 7)).part_num
          - 1) * chunk_data_size ∧
       121 = (parse_block_header ([1, 0, 1, 0, 1, 0, 121, 0] ++ List.replicate 121 7)).data_len ∧
       0 + 121 ≤ BLOCK_BUFFER_SIZE)) :=
  ⟨⟨by decide, (process_chunk_write_bounds 0 Assembly.initial [1, 2, 3]).1 (by decide)⟩,
   ⟨by decide, (process_chunk_write_bounds 0 Assembly.initial
      ([1, 0, 1, 0, 1, 0, 121, 0] ++ List.replicate 121 7)).2 0 121 (by decide)⟩⟩

theorem detect_file_ext_cases (b : Nat → Nat) (n : Nat) :
    (detect_file_ext b n = ".jpg" ↔ 2 ≤ n ∧ b 0 = 0xFF ∧ b 1 = 0xD8) ∧
    (detect_file_ext b n = ".png" ↔
      4 ≤ n ∧ b 0 = 0x89 ∧ b 1 = 0x50 ∧ b 2 = 0x4E ∧ b 3 = 0x47) ∧
    (detect_file_ext b n = ".gif" ↔
      4 ≤ n ∧ b 0 = 0x47 ∧ b 1 = 0x49 ∧ b 2 = 0x46 ∧ b 3 = 0x38) ∧
    (detect_file_ext b n = ".jpg" ∨ detect_file_ext b n = ".png" ∨
      detect_file_ext b n = ".gif" ∨ detect_file_ext b n = ".bin") := by
  unfold detect_file_ext
  split_ifs with h1 h2 h3 h4
  · refine ⟨⟨fun _ => ⟨h1, h2.1, h2.2⟩, fun _ => rfl⟩, ⟨?_, ?_⟩, ⟨?_, ?_⟩, Or.inl rfl⟩
    · intro hs; exact absurd hs (by decide)
    · intro hx; omega
    · intro hs; exact absurd hs (by decide)
    · intro hx; omega
  · refine ⟨⟨?_, ?_⟩, ⟨fun _ => ?_, fun _ => rfl⟩, ⟨?_, ?_⟩, Or.inr (Or.inl rfl)⟩
    · intro hs; exact absurd hs (by decide)
    · intro hx
      exact absurd ⟨hx.2.1, hx.2.2⟩ h2
    · exact ⟨h3.2.2.1, h3.1, h3.2.1, h3.2.2.2.1, h3.2.2.2.2⟩
    · intro hs; exact absurd hs (by decide)
    · intro hx; omega
  · refine ⟨⟨?_, ?_⟩, ⟨?_, ?_⟩, ⟨fun _ => ?_, fun _ => rfl⟩, Or.inr (Or.inr (Or.inl rfl))⟩
    · intro hs; exact absurd hs (by decide)
    · intro hx
      exact absurd ⟨hx.2.1, hx.2.2⟩ h2
    · intro hs; exact absurd hs (by decide)
    · intro hx; omega
    · exact ⟨h4.2.2.1, h4.1, h4.2.1, h4.2.2.2.1, h4.2.2.2.2⟩
  · refine ⟨⟨?_, ?_⟩, ⟨?_, ?_⟩, ⟨?_, ?_⟩, Or.inr (Or.inr (Or.inr rfl))⟩
    · intro hs; exact absurd hs (by decide)
    · intro hx
      exact absurd ⟨hx.2.1, hx.2.2⟩ h2
    · intro hs; exact absurd hs (by decide)
    · intro hx; omega
    · intro hs; exact absurd hs (by decide)
    · intro hx; omega
  · refine ⟨⟨?_, ?_⟩, ⟨?_, ?_⟩, ⟨?_, ?_⟩, Or.inr (Or.inr (Or.inr rfl))⟩
    · intro hs; exact absurd hs (by decide)
    · intro hx; omega
    · intro hs; exact absurd hs (by decide)
    · intro hx; omega
    · intro hs; exact absurd hs (by decide)
    · intro hx; omega

theorem process_completion_spec (now_ms : Nat) (st : Assembly) (data : List Nat)
    (c : Completion) (h : (process_block_chunk now_ms st data).completion = some c) :
    c.ext = detect_file_ext (process_block_chunk now_ms st data).st.data_buffer c.size ∧
    c.filename = completion_filename c.block_id (now_ms / 1000) c.ext := by
  unfold process_block_chunk at h ⊢
  simp only [] at h ⊢
  split_ifs at h ⊢ <;>
    first
      | (simp only [Option.some.injEq] at h
         subst h
         exact ⟨rfl, rfl⟩)
      | simp at h

/-- Claim C6 (amended): when an assembly completes, the receiver detects
the type from the buffer's leading bytes with the CODE's signatures — JPEG
already on the two bytes `FF D8` (not the three-byte `FF D8 FF`), PNG on
`89 50 4E 47`, GIF on the four bytes `47 49 46 38` (`GIF8`, not the
three-byte `47 49 46`), else `.bin` — and writes the object under
`received/block_<block_id>_<timestamp_sec><ext>`, with a boot-time
timestamp between id and extension, not `received/block_<block_id><ext>`. -/
theorem completion_typing_naming (now_ms : Nat) (st : Assembly) (data : List Nat)
    (c : Completion) (h : (process_block_chunk now_ms st data).completion = some c) :
    (c.ext = ".jpg" ↔ 2 ≤ c.size ∧
      (process_block_chunk now_ms st data).st.data_buffer 0 = 0xFF ∧
      (process_block_chunk now_ms st data).st.data_buffer 1 = 0xD8) ∧
    (c.ext = ".png" ↔ 4 ≤ c.size ∧
      (process_block_chunk now_ms st data).st.data_buffer 0 = 0x89 ∧
      (process_block_chunk now_ms st data).st.data_buffer 1 = 0x50 ∧
      (process_block_chunk now_ms st data).st.data_buffer 2 = 0x4E ∧
      (process_block_chunk now_ms st data).st.data_buffer 3 = 0x47) ∧
    (c.ext = ".gif" ↔ 4 ≤ c.size ∧
      (process_block_chunk now_ms st data).st.data_buffer 0 = 0x47 ∧
      (process_block_chunk now_ms st data).st.data_buffer 1 = 0x49 ∧
      (process_block_chunk now_ms st data).st.data_buffer 2 = 0x46 ∧
      (process_block_chunk now_ms st data).st.data_buffer 3 = 0x38) ∧
    (c.ext = ".jpg" ∨ c.ext = ".png" ∨ c.ext = ".gif" ∨ c.ext = ".bin") ∧
    c.filename = completion_filename c.block_id (now_ms / 1000) c.ext := by
  obtain ⟨he, hf⟩ := process_completion_spec now_ms st data c h
  have hd := detect_file_ext_cases (process_block_chunk now_ms st data).st.data_buffer c.size
  rw [he]
  rw [he] at hf
  exact ⟨hd.1, hd.2.1, hd.2.2.1, hd.2.2.2, by rw [← he] at hf ⊢; exact hf⟩

/-- Claim C6 counterexample: a completed block whose buffer starts
`FF D8 00 00` is typed `.jpg` by the code although the claim's signature
`FF D8 FF` does not match (the claim would type it `.bin`), and the file is
written as `received/block_1_5.jpg` — with an embedded timestamp — not the
claimed `received/block_1.jpg`. -/
theorem completion_typing_counterexample :
    ((process_block_chunk 5000 Assembly.initial c6_data).completion.map Completion.ext) =
      some ".jpg" ∧
    spec_detect_file_ext
      (process_block_chunk 5000 Assembly.initial c6_data).st.data_buffer 4 = ".bin" ∧
    ((process_block_chunk 5000 Assembly.initial c6_data).completion.map Completion.filename) =
      some "received/block_1_5.jpg" ∧
    spec_completion_filename 1 ".jpg" = "received/block_1.jpg" ∧
    ("received/block_1_5.jpg" : String) ≠ "received/block_1.jpg" := by
  refine ⟨by decide, by decide, by decide, by decide, by decide⟩

/-- Witness for `completion_typing_naming` at the concrete jpg-typed
completion of `c6_data`. -/
theorem completion_typing_naming_witness :
    (process_block_chunk 5000 Assembly.initial c6_data).completion = some c6_completion ∧
    ((c6_completion.ext = ".jpg" ↔ 2 ≤ c6_completion.size ∧
      (process_block_chunk 5000 Assembly.initial c6_data).st.data_buffer 0 = 0xFF ∧
      (process_block_chunk 5000 Assembly.initial c6_data).st.data_buffer 1 = 0xD8) ∧
    (c6_completion.ext = ".png" ↔ 4 ≤ c6_completion.size ∧
      (process_block_chunk 5000 Assembly.initial c6_data).st.data_buffer 0 = 0x89 ∧
      (process_block_chunk 5000 Assembly.initial c6_data).st.data_buffer 1 = 0x50 ∧
      (process_block_chunk 5000 Assembly.initial c6_data).st.data_buffer 2 = 0x4E ∧
      (process_block_chunk 5000 Assembly.initial c6_data).st.data_buffer 3 = 0x47) ∧
    (c6_completion.ext = ".gif" ↔ 4 ≤ c6_completion.size ∧
      (process_block_chunk 5000 Assembly.initial c6_data).st.data_buffer 0 = 0x47 ∧
      (process_block_chunk 5000 Assembly.initial c6_data).st.data_buffer 1 = 0x49 ∧
      (process_block_chunk 5000 Assembly.initial c6_data).st.data_buffer 2 = 0x46 ∧
      (process_block_chunk 5000 Assembly.initial c6_data).st.data_buffer 3 = 0x38) ∧
    (c6_completion.ext = ".jpg" ∨ c6_completion.ext = ".png" ∨
      c6_completion.ext = ".gif" ∨ c6_completion.ext = ".bin") ∧
    c6_completion.filename =
      completion_filename c6_completion.block_id (5000 / 1000) c6_completion.ext) :=
  ⟨by decide, completion_typing_naming 5000 Assembly.initial c6_data c6_completion (by decide)⟩

/-- Claim C3 (amended): the receiver's retransmission request is the ASCII
string `RETX:BLOCK=<id>,CHUNKS=<list>` — prefix `RETX:`, not `NACK:` — with
`<list>` the comma-separated integers and inclusive ranges of the missing
runs, and the sender's handler accepts exactly payloads of that `RETX:`
form: it accepts every message the receiver builds (returning the chunk
list after `CHUNKS=`), and anything it accepts starts with the literal
`RETX:BLOCK=`. -/
theorem retx_format_roundtrip (id : Nat) (mask : List Bool) :
    handle_retransmit_request_gate true id (retx_message id mask) =
      .accepted (renderRuns (collectRuns mask)) ∧
    ∀ (active : Bool) (cid : Nat) (msg rest : List Char),
      handle_retransmit_request_gate active cid msg = .accepted rest →
      ∃ tail, msg = retxHead ++ tail := by
  constructor
  · have h1 := retx_scan_message id mask
    have h2' : findLit chunksLit (retx_message id mask) =
        some (renderRuns (collectRuns mask)) :=
      findLit_chunks_retx id (renderRuns (collectRuns mask))
    simp [handle_retransmit_request_gate, h1, h2']
  · intro active cid msg rest h
    unfold handle_retransmit_request_gate at h
    cases active with
    | false => simp at h
    | true =>
      rw [if_neg (by simp)] at h
      cases hscan : retx_scan_block_id msg with
      | none => rw [hscan] at h; simp at h
      | some id' =>
        unfold retx_scan_block_id at hscan
        cases hdrop : dropLit retxHead msg with
        | none => rw [hdrop] at hscan; simp at hscan
        | some r => exact ⟨r, dropLit_eq_some retxHead msg r hdrop⟩

/-- Claim C3 counterexample: the message built for block 1 with part 1
missing is `RETX:BLOCK=1,CHUNKS=1` — not the claimed `NACK:BLOCK=...` form
— and the sender's handler rejects the claimed `NACK:` form with error -2
while accepting the `RETX:` form. -/
theorem retx_not_nack_counterexample :
    retx_message 1 [false, true] = "RETX:BLOCK=1,CHUNKS=1".toList ∧
    handle_retransmit_request_gate true 1 "NACK:BLOCK=1,CHUNKS=2".toList = .err (-2) ∧
    handle_retransmit_request_gate true 1 "RETX:BLOCK=1,CHUNKS=2".toList = .accepted ['2'] := by
  refine ⟨by decide, by decide, by decide⟩

/-- Witness for `retx_format_roundtrip` at a concrete block id, mask and
accepted message. -/
theorem retx_format_roundtrip_witness :
    handle_retransmit_request_gate true 2 (retx_message 2 [false, true, false]) =
      .accepted (renderRuns (collectRuns [false, true, false])) ∧
    (∃ tail, ("RETX:BLOCK=7,CHUNKS=1".toList : List Char) = retxHead ++ tail) :=
  ⟨(retx_format_roundtrip 2 [false, true, false]).1,
   (retx_format_roundtrip 0 []).2 true 7 "RETX:BLOCK=7,CHUNKS=1".toList ['1'] (by decide)⟩

/-- Claim C10: one retransmission request encodes at most 50 maximal runs
of consecutive missing parts — the encoded ranges are exactly the first
min(50, all) maximal missing runs of the mask, so when more runs exist the
excess parts are omitted from the request (a later request, built after the
mask has changed, can cover them). -/
theorem retx_runs_cutoff (mask : List Bool) :
    collectRuns mask = (specMissingRuns mask).take 50 ∧ (collectRuns mask).length ≤ 50 := by
  have h := collectRunsAux_eq_take mask 0 0 none [] (by omega)
  have h' : collectRuns mask = (specMissingRuns mask).take 50 := by
    simpa [collectRuns, specMissingRuns] using h
  refine ⟨h', ?_⟩
  rw [h', List.length_take]
  exact min_le_left _ _
